import Mathlib

/-!
Verification of the `ShopAppAgent` transaction orchestrator of the shopx
repository. Two near-identical variants of the agent exist in the sources:
`src/tools/shopapp/agent.ts` (embedded below in namespace `AgentTs`) and
`src/unnamed/part_017` (embedded in namespace `Part017`).

The embedding is a shallow one: every method of the `ShopAppAgent` class is
translated into a Lean function over an explicit writer-plus-error monad `M`.
The trace component of `M` records every observable effect of a run, one
`Event` per call into one of the three external capabilities (Notification
Channel, Page Automation, Completion Service).  The external world (DOM
state, completion-service answers, the human response) enters as explicit
oracle arguments: a value of type `Nat → Except String X` gives, for each
1-based attempt number of a retried operation, either the attempt's result
or the error message it throws.  Page waits (`waitForTimeout`) and the card
by card DOM scan are below the granularity of any property proved here and
are elided; the presence of a matching product card is an oracle Boolean.
-/

/-- One retrieved item record, `interface Product` of both agent variants
(`title`, `brand`, `price`, `rating`, `reviewCount`, `href`). -/
structure Product where
  title : String
  brand : String
  price : String
  rating : Nat
  reviewCount : Nat
  href : String
  deriving DecidableEq, Repr

/-- One observable effect of an agent run.

* `msg t d` — `callback.sendMessage(t, d)` (`d = []` when no detail lines);
* `image` — `callback.sendImage(...)`;
* `options ls` — `callback.sendOptions(ls)`, the one human-in-the-loop prompt;
* `wait ms` — the backoff sleep `setTimeout(..., ms)` of `retryWithBackoff`;
* `llm op` — one HTTP call to the completion service, tagged with the name of
  the operation issuing it;
* `goto url` — `page.goto(url)`;
* `goBack` — `page.goBack()`;
* `readUrl` — `page.url()` (one per `clickBuyNow` attempt);
* `clickTitle t` — `clickProduct` clicking the card whose title is `t`;
* `buyClick` — clicking the buy-now button;
* `screenshot` — `page.screenshot(...)`;
* `browserClose` — `browser.close()` in `run`'s `finally` block. -/
inductive Event where
  | msg (text : String) (details : List String)
  | image
  | options (labels : List String)
  | wait (ms : Nat)
  | llm (op : String)
  | goto (url : String)
  | goBack
  | readUrl
  | clickTitle (title : String)
  | buyClick
  | screenshot
  | browserClose
  deriving DecidableEq, Repr

/-- The effect monad of the embedding: a trace of events plus either a result
or the message of the thrown error (all errors thrown by the agent carry a
string message). -/
def M (α : Type) : Type := List Event × Except String α

/-- The result component of a computation. -/
def M.res (x : M α) : Except String α := x.2

/-- The trace component of a computation. -/
def M.trace (x : M α) : List Event := x.1

def M.pure (a : α) : M α := ([], Except.ok a)

def M.bind (x : M α) (f : α → M β) : M β :=
  match x with
  | (t, Except.error e) => (t, Except.error e)
  | (t, Except.ok a) => (t ++ (f a).1, (f a).2)

instance : Monad M where
  pure := M.pure
  bind := M.bind

/-- Emit one event (one external call). -/
def emit (e : Event) : M Unit := ([e], Except.ok ())

/-- `callback.sendMessage(t)` without detail lines. -/
def sendMsg (t : String) : M Unit := emit (Event.msg t [])

/-- `callback.sendMessage(t, d)` with detail lines. -/
def sendMsgD (t : String) (d : List String) : M Unit := emit (Event.msg t d)

/-- `throw new Error e`. -/
def throwE (e : String) : M α := ([], Except.error e)

/-- Lift an oracle answer into the monad (no observable effect of its own). -/
def liftE (x : Except String α) : M α := ([], x)

/-- `try x catch (e) h` — the trace of the failed body is kept, then the
handler runs. -/
def catchM (x : M α) (h : String → M α) : M α :=
  match x with
  | (t, Except.error e) => (t ++ (h e).1, (h e).2)
  | (t, Except.ok a) => (t, Except.ok a)

@[simp] theorem bind_eq (x : M α) (f : α → M β) : x >>= f = M.bind x f := rfl

@[simp] theorem pure_eq (a : α) : (Pure.pure a : M α) = ([], Except.ok a) := rfl

@[simp] theorem M.bind_ok (t : List Event) (a : α) (f : α → M β) :
    M.bind (t, Except.ok a) f = (t ++ (f a).1, (f a).2) := rfl

@[simp] theorem M.bind_err (t : List Event) (e : String) (f : α → M β) :
    M.bind (t, Except.error e) f = (t, Except.error e) := rfl

@[simp] theorem catchM_ok (t : List Event) (a : α) (h : String → M α) :
    catchM (t, Except.ok a) h = (t, Except.ok a) := rfl

@[simp] theorem catchM_err (t : List Event) (e : String) (h : String → M α) :
    catchM (t, Except.error e) h = (t ++ (h e).1, (h e).2) := rfl

@[simp] theorem emit_def (e : Event) : emit e = ([e], Except.ok ()) := rfl

@[simp] theorem sendMsg_def (t : String) : sendMsg t = ([Event.msg t []], Except.ok ()) := rfl

@[simp] theorem sendMsgD_def (t : String) (d : List String) :
    sendMsgD t d = ([Event.msg t d], Except.ok ()) := rfl

@[simp] theorem liftE_def (x : Except String α) : liftE x = ([], x) := rfl

/-! ### String helpers mirroring the JavaScript primitives used by the agent -/

/-- Is `n` a leading segment of `l`? (helper for the substring test). -/
def leadsWith : List Char → List Char → Bool
  | [], _ => true
  | _ :: _, [] => false
  | a :: as, b :: bs => a = b && leadsWith as bs

/-- Does `n` occur as a contiguous segment of `l`? -/
def hasSeg (n : List Char) : List Char → Bool
  | [] => n.isEmpty
  | c :: cs => leadsWith n (c :: cs) || hasSeg n cs

/-- JavaScript `hay.includes(needle)`. -/
def strIncludes (hay needle : String) : Bool := hasSeg needle.toList hay.toList

/-- JavaScript `s.toLowerCase()` (ASCII case folding; the agent only compares
product titles, where this coincides with the JavaScript behaviour). -/
def lowerStr (s : String) : String := String.mk (s.toList.map Char.toLower)

/-- Helper for `splitNl`: accumulate characters up to each newline. -/
def splitNlAux : List Char → List Char → List String
  | [], acc => [String.mk acc.reverse]
  | c :: cs, acc =>
    if c = '\n' then String.mk acc.reverse :: splitNlAux cs []
    else splitNlAux cs (c :: acc)

/-- JavaScript `s.split('\n')`. -/
def splitNl (s : String) : List String := splitNlAux s.toList []

/-- JavaScript `s.trim()`: strip whitespace from both ends. -/
def trimStr (s : String) : String :=
  String.mk (((s.toList.dropWhile Char.isWhitespace).reverse.dropWhile Char.isWhitespace).reverse)

/-- JavaScript `s.startsWith(pre)`. -/
def startsWithJS (s pre : String) : Bool := leadsWith pre.toList s.toList

/-- JavaScript `parseInt(s)` in base 10: skip leading whitespace, optional
sign, then the longest run of decimal digits; `none` models `NaN`. -/
def parseIntJS (s : String) : Option Int :=
  let cs := s.toList.dropWhile (fun c => c.isWhitespace)
  let signAndRest : Int × List Char :=
    match cs with
    | '-' :: t => (-1, t)
    | '+' :: t => (1, t)
    | t => (1, t)
  let ds := signAndRest.2.takeWhile (fun c => c.isDigit)
  if ds.isEmpty then none
  else some (signAndRest.1 * Int.ofNat (ds.foldl (fun a c => a * 10 + (c.toNat - 48)) 0))

/-- A JavaScript number that may be `NaN` (the result of `parseInt`). -/
abbrev JsNum := Option Int

/-- JavaScript `n - 1` on a possibly-NaN number. -/
def jsSub1 (n : JsNum) : JsNum := n.map (fun k => k - 1)

/-- JavaScript `arr[i]` for a possibly-NaN index: `undefined` (`none`) for
`NaN`, negative, or out-of-range indices. -/
def jsGet (l : List α) (i : JsNum) : Option α :=
  match i with
  | none => none
  | some k => if k < 0 then none else l.get? k.toNat

/-- JavaScript `s || d` for strings (the empty string is falsy). -/
def jsOrStr (s d : String) : String := if s = "" then d else s

/-- One hexadecimal digit, upper case. -/
def hexDig (n : Nat) : Char := if n < 10 then Char.ofNat (48 + n) else Char.ofNat (55 + n)

/-- Percent-encode one byte. -/
def pctByte (b : Nat) : String :=
  String.mk ['%', hexDig (b / 16), hexDig (b % 16)]

/-- The UTF-8 encoding of one character, as byte values. -/
def utf8Bytes (c : Char) : List Nat :=
  let n := c.toNat
  if n < 0x80 then [n]
  else if n < 0x800 then [0xC0 + n / 64, 0x80 + n % 64]
  else if n < 0x10000 then [0xE0 + n / 4096, 0x80 + (n / 64) % 64, 0x80 + n % 64]
  else [0xF0 + n / 262144, 0x80 + (n / 4096) % 64, 0x80 + (n / 64) % 64, 0x80 + n % 64]

/-- The characters `encodeURIComponent` leaves unescaped. -/
def uriUnreserved (c : Char) : Bool :=
  c.isAlphanum || c ∈ ['-', '_', '.', '!', '~', '*', '\'', '(', ')']

/-- JavaScript `encodeURIComponent`. -/
def encodeURIComponent (s : String) : String :=
  s.toList.foldl
    (fun acc c =>
      if uriUnreserved c then acc.push c
      else acc ++ String.join ((utf8Bytes c).map pctByte))
    ""

/-! ### The Retry Supervisor (`retryWithBackoff`)

Both agent variants contain the same private method

```
private async retryWithBackoff<T>(operation, operationName, maxRetries = 3) {
  let lastError = null;
  for (let attempt = 1; attempt <= maxRetries; attempt++) {
    try { return await operation(); }
    catch (error) {
      lastError = error;
      await this.callback.sendMessage(`<failPre>${operationName} failed (attempt ${attempt}/${maxRetries}): ${lastError.message}`);
      if (attempt < maxRetries) {
        const delay = this.retryDelay * Math.pow(2, attempt - 1);
        await this.callback.sendMessage(`<retryPre>${delay}ms...`);
        await new Promise(resolve => setTimeout(resolve, delay));
      }
    }
  }
  throw new Error(`${operationName} failed after ${maxRetries} attempts. Last error: ${lastError?.message}`);
}
```

the only difference being the literal text around the two status messages:
`agent.ts` uses a leading `"❌ "` on the failure report and `"⏳ Retrying in "`
on the backoff notice, `part_017` uses no prefix and the (mojibake) literal
`"â³ Retrying in "`.  The loop is embedded as `retryGo`, recursing on the
number of attempts that may still run; `attempt` is the 1-based index of the
current attempt and `retryDelay` (= 1000 in both variants) is the `base`
argument. -/

/-- The per-failure status message of `retryWithBackoff`. -/
def failMsgStr (failPre name : String) (attempt maxRetries : Nat) (err : String) : String :=
  failPre ++ name ++ " failed (attempt " ++ toString attempt ++ "/" ++ toString maxRetries ++ "): " ++ err

/-- The backoff notice of `retryWithBackoff`. -/
def retryMsgStr (retryPre : String) (delay : Nat) : String :=
  retryPre ++ toString delay ++ "ms..."

/-- The terminal error of `retryWithBackoff` (`lastErr = none` models the
`lastError?.message` of a loop that never ran, printed as `undefined`). -/
def exhaustMsg (name : String) (maxRetries : Nat) (lastErr : Option String) : String :=
  name ++ " failed after " ++ toString maxRetries ++ " attempts. Last error: " ++
    (match lastErr with | some e => e | none => "undefined")

/-- The retry loop: `fuel` is the number of attempts that may still run
(`maxRetries - attempt + 1` at every call), `lastErr` the message of the most
recent failure. -/
def retryGo (failPre retryPre : String) (op : Nat → M α) (name : String)
    (maxRetries base : Nat) : (attempt : Nat) → (fuel : Nat) → (lastErr : Option String) → M α
  | _, 0, lastErr => ([], Except.error (exhaustMsg name maxRetries lastErr))
  | attempt, fuel + 1, _ =>
    match op attempt with
    | (evs, Except.ok v) => (evs, Except.ok v)
    | (evs, Except.error e) =>
      if fuel = 0 then
        (evs ++ [Event.msg (failMsgStr failPre name attempt maxRetries e) []],
         Except.error (exhaustMsg name maxRetries (some e)))
      else
        let d := base * 2 ^ (attempt - 1)
        let rest := retryGo failPre retryPre op name maxRetries base (attempt + 1) fuel (some e)
        (evs ++ [Event.msg (failMsgStr failPre name attempt maxRetries e) [],
                 Event.msg (retryMsgStr retryPre d) [], Event.wait d] ++ rest.1, rest.2)

/-- `retryWithBackoff(operation, operationName, maxRetries)` parameterised by
the two message prefixes that differ between the agent variants. -/
def retryCore (failPre retryPre : String) (op : Nat → M α) (name : String)
    (maxRetries base : Nat) : M α :=
  retryGo failPre retryPre op name maxRetries base 1 maxRetries none

namespace AgentTs

/-- `retryWithBackoff` of `src/tools/shopapp/agent.ts` (lines 50-74). -/
def retryWithBackoff (op : Nat → M α) (name : String) (maxRetries : Nat := 3) : M α :=
  retryCore "❌ " "⏳ Retrying in " op name maxRetries 1000

end AgentTs

namespace Part017

/-- `retryWithBackoff` of `src/unnamed/part_017` (lines 52-76). -/
def retryWithBackoff (op : Nat → M α) (name : String) (maxRetries : Nat := 3) : M α :=
  retryCore "" "\xE2\xB3 Retrying in " op name maxRetries 1000

end Part017

/-! ### Generic lemmas about the retry loop -/

/-- If the first attempt that runs succeeds, the supervisor returns its result
and adds nothing to its trace. -/
theorem retryGo_first_ok (failPre retryPre : String) (op : Nat → M α) (name : String)
    (maxRetries base attempt fuel : Nat) (lastErr : Option String) (evs : List Event) (v : α)
    (h : op attempt = (evs, Except.ok v)) :
    retryGo failPre retryPre op name maxRetries base attempt (fuel + 1) lastErr
      = (evs, Except.ok v) := by
  simp [retryGo, h]

/-- A successful supervisor result is the result of one of the attempts. -/
theorem retryGo_ok_source (failPre retryPre : String) (op : Nat → M α) (name : String)
    (maxRetries base : Nat) :
    ∀ (fuel attempt : Nat) (lastErr : Option String) (t : List Event) (v : α),
      retryGo failPre retryPre op name maxRetries base attempt fuel lastErr = (t, Except.ok v) →
      ∃ i, (op i).2 = Except.ok v := by
  intro fuel
  induction fuel with
  | zero =>
    intro attempt lastErr t v h
    exact absurd (congrArg Prod.snd h) (by simp [retryGo])
  | succ k ih =>
    intro attempt lastErr t v h
    rcases hop : op attempt with ⟨evs, r⟩
    rcases r with e | a
    · simp only [retryGo, hop] at h
      by_cases hk : k = 0
      · subst hk
        simp only [if_pos rfl] at h
        exact absurd (congrArg Prod.snd h) (by simp)
      · simp only [if_neg hk] at h
        have h2 := congrArg Prod.snd h
        rcases hrest : retryGo failPre retryPre op name maxRetries base (attempt + 1) k (some e)
          with ⟨t2, r2⟩
        rw [hrest] at h2
        cases r2 with
        | error e2 => simp at h2
        | ok a2 =>
          simp only [Prod.snd] at h2
          cases h2
          exact ih (attempt + 1) (some e) t2 v hrest
    · simp only [retryGo, hop] at h
      have h2 := congrArg Prod.snd h
      simp only [Prod.snd] at h2
      cases h2
      exact ⟨attempt, by rw [hop]⟩

/-- A successful `retryCore` result is the result of one of the attempts. -/
theorem retryCore_ok_source (failPre retryPre : String) (op : Nat → M α) (name : String)
    (maxRetries base : Nat) (t : List Event) (v : α)
    (h : retryCore failPre retryPre op name maxRetries base = (t, Except.ok v)) :
    ∃ i, (op i).2 = Except.ok v :=
  retryGo_ok_source failPre retryPre op name maxRetries base maxRetries 1 none t v h

/-- The trace the supervisor produces for a run of `count` consecutive failed,
non-final attempts starting at attempt number `attempt`: for each failure the
attempt's own events (`etr`), the failure report, the backoff notice, and the
backoff sleep. -/
def blocksFrom (failPre retryPre name : String) (maxRetries base : Nat)
    (etr : Nat → List Event) (ef : Nat → String) : (attempt count : Nat) → List Event
  | _, 0 => []
  | attempt, count + 1 =>
    etr attempt
      ++ [Event.msg (failMsgStr failPre name attempt maxRetries (ef attempt)) [],
          Event.msg (retryMsgStr retryPre (base * 2 ^ (attempt - 1))) [],
          Event.wait (base * 2 ^ (attempt - 1))]
      ++ blocksFrom failPre retryPre name maxRetries base etr ef (attempt + 1) count

/-- The trace the supervisor produces when every one of the remaining `fuel`
attempts (starting at `attempt`) fails: as `blocksFrom`, except that the final
attempt gets no backoff notice and no sleep. -/
def failBlocksFrom (failPre retryPre name : String) (maxRetries base : Nat)
    (etr : Nat → List Event) (ef : Nat → String) : (attempt fuel : Nat) → List Event
  | _, 0 => []
  | attempt, fuel + 1 =>
    etr attempt
      ++ Event.msg (failMsgStr failPre name attempt maxRetries (ef attempt)) []
        :: ((if fuel = 0 then []
             else [Event.msg (retryMsgStr retryPre (base * 2 ^ (attempt - 1))) [],
                   Event.wait (base * 2 ^ (attempt - 1))])
          ++ failBlocksFrom failPre retryPre name maxRetries base etr ef (attempt + 1) fuel)

/-- If, starting at `attempt`, the operation fails `k` times (with `k` strictly
below the remaining fuel) and then succeeds, the supervisor returns the success
value after the `k` failure blocks. -/
theorem retryGo_after_k (failPre retryPre : String) (op : Nat → M α) (name : String)
    (maxRetries base : Nat) (etr : Nat → List Event) (ef : Nat → String) :
    ∀ (k attempt fuel : Nat) (lastErr : Option String) (tk : List Event) (v : α),
      k < fuel →
      (∀ j, j < k → op (attempt + j) = (etr (attempt + j), Except.error (ef (attempt + j)))) →
      op (attempt + k) = (tk, Except.ok v) →
      retryGo failPre retryPre op name maxRetries base attempt fuel lastErr
        = (blocksFrom failPre retryPre name maxRetries base etr ef attempt k ++ tk,
           Except.ok v) := by
  intro k
  induction k with
  | zero =>
    intro attempt fuel lastErr tk v hk _ hok
    obtain ⟨f, rfl⟩ : ∃ f, fuel = f + 1 := ⟨fuel - 1, by omega⟩
    rw [retryGo_first_ok failPre retryPre op name maxRetries base attempt f lastErr tk v
      (by simpa using hok)]
    simp [blocksFrom]
  | succ k ih =>
    intro attempt fuel lastErr tk v hk hfail hok
    obtain ⟨f, rfl⟩ : ∃ f, fuel = f + 1 := ⟨fuel - 1, by omega⟩
    have hfirst : op attempt = (etr attempt, Except.error (ef attempt)) := by
      simpa using hfail 0 (Nat.succ_pos k)
    have hfne : f ≠ 0 := by omega
    have hrest := ih (attempt + 1) f (some (ef attempt)) tk v (by omega)
      (fun j hj => by
        have := hfail (j + 1) (by omega)
        simpa [Nat.add_assoc, Nat.add_comm 1 j] using this)
      (by
        have := hok
        simpa [Nat.add_assoc, Nat.add_comm 1 k] using this)
    simp only [retryGo, hfirst, if_neg hfne]
    rw [hrest]
    simp [blocksFrom, List.append_assoc]

/-- If every attempt fails, the supervisor exhausts its fuel and raises the
terminal error with the operation name and the error of the final attempt
(attempt number `maxRetries`). -/
theorem retryGo_all_fail (failPre retryPre : String) (op : Nat → M α) (name : String)
    (maxRetries base : Nat) (etr : Nat → List Event) (ef : Nat → String)
    (hop : ∀ j, op j = (etr j, Except.error (ef j))) :
    ∀ (fuel attempt : Nat) (lastErr : Option String),
      1 ≤ fuel → attempt + fuel = maxRetries + 1 →
      retryGo failPre retryPre op name maxRetries base attempt fuel lastErr
        = (failBlocksFrom failPre retryPre name maxRetries base etr ef attempt fuel,
           Except.error (exhaustMsg name maxRetries (some (ef maxRetries)))) := by
  intro fuel
  induction fuel with
  | zero => intro attempt lastErr h1 _; omega
  | succ f ih =>
    intro attempt lastErr _ hsum
    by_cases hf : f = 0
    · subst hf
      have hatt : attempt = maxRetries := by omega
      subst hatt
      simp [retryGo, hop, failBlocksFrom, exhaustMsg]
    · have := ih (attempt + 1) (some (ef attempt)) (by omega) (by omega)
      simp only [retryGo, hop, if_neg hf]
      rw [this]
      simp [failBlocksFrom, if_neg hf, List.append_assoc]

/-- `blocksFrom` for an operation with no events of its own is three events
per failed attempt: failure report, backoff notice, sleep. -/
theorem blocksFrom_pure_length (failPre retryPre name : String) (maxRetries base : Nat)
    (ef : Nat → String) :
    ∀ count attempt,
      (blocksFrom failPre retryPre name maxRetries base (fun _ => []) ef attempt count).length
        = 3 * count := by
  intro count
  induction count with
  | zero => intro attempt; simp [blocksFrom]
  | succ c ih =>
    intro attempt
    simp [blocksFrom, ih (attempt + 1)]
    omega

/-- `failBlocksFrom` for an operation with no events of its own has three
events per non-final attempt and one for the final attempt. -/
theorem failBlocksFrom_pure_length (failPre retryPre name : String) (maxRetries base : Nat)
    (ef : Nat → String) :
    ∀ fuel attempt, 1 ≤ fuel →
      (failBlocksFrom failPre retryPre name maxRetries base (fun _ => []) ef attempt fuel).length
        = 3 * fuel - 2 := by
  intro fuel
  induction fuel with
  | zero => intro attempt h; omega
  | succ f ih =>
    intro attempt _
    by_cases hf : f = 0
    · subst hf; simp [failBlocksFrom]
    · simp [failBlocksFrom, if_neg hf, ih (attempt + 1) (by omega)]
      omega

/-- Predicate picking out the backoff sleeps of a trace. -/
def isWait : Event → Bool
  | Event.wait _ => true
  | _ => false

/-- In a run of `k` failed non-final attempts starting at attempt 1, the `i`-th
backoff sleep (0-based `i`) lasts `base * 2 ^ i` milliseconds. -/
theorem blocksFrom_filter_wait (failPre retryPre name : String) (maxRetries base : Nat)
    (ef : Nat → String) :
    ∀ count attempt, 1 ≤ attempt →
      (blocksFrom failPre retryPre name maxRetries base (fun _ => []) ef attempt count).filter isWait
        = (List.range count).map (fun j => Event.wait (base * 2 ^ (attempt - 1 + j))) := by
  intro count
  induction count with
  | zero => intro attempt _; simp [blocksFrom]
  | succ c ih =>
    intro attempt hatt
    rw [List.range_succ_eq_map]
    simp only [blocksFrom, List.nil_append, List.filter_append, List.filter_cons,
      List.map_cons, List.map_map]
    rw [ih (attempt + 1) (by omega)]
    simp [isWait, Function.comp_def]
    intro a _
    omega

/-! ### Shared pieces of the two agent variants -/

/-- The tolerant title match of `selectBestProducts`: `products.find(p =>
p.title.toLowerCase().includes(title.toLowerCase()) ||
title.toLowerCase().includes(p.title.toLowerCase()))`. -/
def findByTitle (products : List Product) (title : String) : Option Product :=
  products.find? (fun p =>
    strIncludes (lowerStr p.title) (lowerStr title)
      || strIncludes (lowerStr title) (lowerStr p.title))

/-- `content.split('\n').map(l => l.trim()).filter(l => l.length > 0)`. -/
def cleanLines (content : String) : List String :=
  ((splitNl content).map (fun l => trimStr l)).filter (fun l => !l.toList.isEmpty)

/-- The accumulation loop of `selectBestProducts`: for each returned line, look
the line up among the candidates and push the match while fewer than 5 products
are selected (`if (product && selectedProducts.length < 5) push`). -/
def selectLoop (products : List Product) : List String → List Product → List Product
  | [], acc => acc
  | t :: ts, acc =>
    match findByTitle products t with
    | some p =>
      if acc.length < 5 then selectLoop products ts (acc ++ [p])
      else selectLoop products ts acc
    | none => selectLoop products ts acc

/-- The selection logic `run` applies to the resolved index (identical in both
variants): `selectedProducts[selectedProductIndex - 1]`, falling back to
`selectedProducts[0]` when that JavaScript lookup is `undefined` (NaN index,
zero, negative, or past the end). -/
def resolveChosen (selectedProducts : List Product) (idx : JsNum) : Option Product :=
  match jsGet selectedProducts (jsSub1 idx) with
  | some p => some p
  | none => selectedProducts.head?

/-- `callback.sendOptions(labels)`: presents the labels and suspends until the
human answers; the answer is the `response` oracle. -/
def sendOptionsM (labels : List String) (response : String) : M String :=
  ([Event.options labels], Except.ok response)

/-- Lift the outcome of a void page operation (`page.goBack()`). -/
def liftOpt : Option String → M Unit
  | some e => ([], Except.error e)
  | none => ([], Except.ok ())

/-- One attempt of `extractProducts` (identical in both variants): scan the
product cards on the page; throw when none are present or none survive the
`if (title && href)` filter. -/
def extractAttempt (cards : Nat → List (Option Product)) (i : Nat) : M (List Product) :=
  let cs := cards i
  if cs.length = 0 then throwE "No product cards found on the page"
  else
    let products := cs.filterMap id
    if products.length = 0 then throwE "No products could be extracted from the page"
    else pure products

/-- One attempt of `clickProduct` (identical in both variants): re-scan the
result cards for one whose title equals the product's and click it. -/
def clickAttempt (findCard : Nat → Bool) (product : Product) (i : Nat) : M Unit :=
  if findCard i then ([Event.clickTitle product.title], Except.ok ())
  else throwE ("Could not find product: " ++ product.title)

namespace AgentTs

/-- The external world of one `agent.ts` run.  Completion-service oracles give,
per 1-based attempt, the text completion or the error thrown by the HTTP call;
`extractCards` gives for each extraction attempt the product cards on the page
(`none` = a card whose title/href fields do not survive the `if (title && href)`
filter); `clickCard i` tells whether attempt `i` of `clickProduct` finds and
clicks a matching card; `buyUrl`/`buyBtn` give `page.url()` and the presence of
a buy-now control per `clickBuyNow` attempt; `humanResponse` is the text the
human answers to `sendOptions`. -/
structure World where
  launchOk : Bool
  launchErr : String
  initErr : Option String
  genQueryC : Nat → Except String String
  searchA : Nat → Except String Unit
  extractCards : Nat → List (Option Product)
  rankC : Nat → Except String String
  humanResponse : String
  chooseC : Nat → Except String String
  clickCard : Nat → Bool
  buyUrl : Nat → String
  buyBtn : Nat → Bool

/-- `initialize` (lines 76-108): launch the browser, open a page, load cookies
(which navigates to `https://shop.app`).  `launchOk = false` models
`chromium.launch` itself rejecting — `this.browser` stays `null`; `initErr =
some e` models a later failure inside `initialize`, after the browser was
assigned. -/
def initBrowser (w : World) : M Unit :=
  if w.launchOk then
    match w.initErr with
    | some e => ([], Except.error e)
    | none => ([Event.goto "https://shop.app"], Except.ok ())
  else ([], Except.error w.launchErr)

/-- One attempt of `generateSearchQuery`: the completion call, then
`content.trim()`. -/
def genQueryAttempt (genC : Nat → Except String String) (i : Nat) : M String := do
  emit (Event.llm "Generating search query")
  let content ← liftE (genC i)
  pure (trimStr content)

/-- `generateSearchQuery` (lines 159-189): completion call under the Retry
Supervisor; on exhausted retries falls back to the unchanged user prompt with a
warning. -/
def generateSearchQuery (genC : Nat → Except String String) (userPrompt : String) : M String :=
  catchM
    (retryWithBackoff (genQueryAttempt genC) "Generating search query" 3)
    (fun _ => do
      sendMsg ("⚠️ Failed to generate search query, using original prompt: " ++ userPrompt)
      pure userPrompt)

/-- `navigateToShopApp` (lines 191-196). -/
def navigateToShopApp : M Unit := sendMsg "Navigating to Shopapp..."

/-- One attempt of `performSearch`: navigate to the results URL, announce the
wait, let the page settle. -/
def searchAttempt (searchA : Nat → Except String Unit) (searchQuery : String) (i : Nat) :
    M Unit := do
  emit (Event.goto ("https://shop.app/search/results?query="
    ++ encodeURIComponent searchQuery))
  sendMsg "Waiting for search results"
  liftE (searchA i)

/-- `performSearch` (lines 198-210). -/
def performSearch (searchA : Nat → Except String Unit) (searchQuery : String) : M Unit := do
  sendMsg ("Searching Shopapp with " ++ searchQuery)
  retryWithBackoff (searchAttempt searchA searchQuery) "Search operation" 3

/-- `extractProducts` (lines 212-268): throws when no product card is on the
page, or when no card survives the `if (title && href)` filter. -/
def extractProducts (cards : Nat → List (Option Product)) : M (List Product) := do
  sendMsg "Gathering items"
  retryWithBackoff (extractAttempt cards) "Product extraction" 3

/-- One attempt of `selectBestProducts`: the ranking completion call, its
response resolved by `selectLoop`. -/
def rankAttempt (rankC : Nat → Except String String) (products : List Product) (i : Nat) :
    M (List Product) := do
  emit (Event.llm "Selecting best products")
  let content ← liftE (rankC i)
  pure (selectLoop products (cleanLines content) [])

/-- `selectBestProducts` (lines 270-332): ranking completion call under the
Retry Supervisor, response resolved by `selectLoop`; on exhausted retries falls
back to the first five candidates with a warning. -/
def selectBestProducts (rankC : Nat → Except String String) (products : List Product)
    (_userPrompt : String) : M (List Product) := do
  sendMsg ("Picking best items from " ++ toString products.length ++ " products")
  if products.length = 0 then pure []
  else
    catchM
      (retryWithBackoff (rankAttempt rankC products) "Selecting best products" 3)
      (fun _ => do
        sendMsg "⚠️ Failed to select best products, using first 5 products"
        pure (products.take 5))

/-- `clickProduct` (lines 334-378): re-locates the product by title among the
freshly queried result cards and clicks it; whether a matching card exists on
attempt `i` is the oracle `findCard i`. -/
def clickProduct (findCard : Nat → Bool) (product : Product) : M Unit :=
  retryWithBackoff (clickAttempt findCard product) ("Clicking product: " ++ product.title) 3

/-- `takeScreenshot` (lines 445-460). -/
def takeScreenshot : M Unit := do
  emit Event.screenshot
  sendMsg "Checkout reached"
  emit Event.image

/-- One attempt of `clickBuyNow`: read `page.url()`, enforce the
product-detail-page precondition, then find and click a buy-now control. -/
def buyNowAttempt (url : Nat → String) (btn : Nat → Bool) (i : Nat) : M Unit := do
  emit Event.readUrl
  if !startsWithJS (url i) "https://shop.app/products/" then
    throwE ("Not on a product page. Current URL: " ++ url i
      ++ ". Buy now button only available on product pages.")
  else if btn i then do
    emit Event.buyClick
    takeScreenshot
  else throwE "Buy now button not found with any selector"

/-- `clickBuyNow` (lines 380-443): the whole attempt body, precondition check
included, runs inside the Retry Supervisor with the default `maxRetries = 3`. -/
def clickBuyNow (url : Nat → String) (btn : Nat → Bool) : M Unit := do
  sendMsg "Heading to checkout"
  retryWithBackoff (buyNowAttempt url btn) "Clicking buy now button" 3

/-- One attempt of `getSelectedProduct`: the completion call, then a bare
`parseInt` of the completion text. -/
def chooseAttempt (chooseC : Nat → Except String String) (i : Nat) : M JsNum := do
  emit (Event.llm "Getting selected product")
  let content ← liftE (chooseC i)
  pure (parseIntJS content)

/-- `getSelectedProduct` (lines 462-496): sends the raw human response to the
completion service and returns `parseInt` of the completion text; only when the
retries are exhausted does it fall back to `1`. -/
def getSelectedProduct (chooseC : Nat → Except String String) (_selectedProducts : List Product)
    (_selectedOption : String) : M JsNum :=
  catchM
    (retryWithBackoff (chooseAttempt chooseC) "Getting selected product" 3)
    (fun _ => do
      sendMsg "⚠️ Failed to parse product selection, defaulting to first product"
      pure (some 1))

/-- `run` (lines 498-549): the end-to-end pipeline with its `try/catch/finally`;
the `finally` closes the browser whenever `this.browser` was assigned, i.e.
exactly when `chromium.launch` succeeded. -/
def run (w : World) (userPrompt : String) : M Unit :=
  let body : M Unit := do
    initBrowser w
    let searchQuery ← generateSearchQuery w.genQueryC userPrompt
    sendMsg ("Search query: " ++ searchQuery)
    navigateToShopApp
    performSearch w.searchA searchQuery
    let products ← extractProducts w.extractCards
    if products.length = 0 then
      sendMsg "❌ No products found. The search might have failed or the page structure changed."
    else do
      let selectedProducts ← selectBestProducts w.rankC products userPrompt
      if selectedProducts.length > 0 then do
        let selectedOption ← sendOptionsM (selectedProducts.map (fun sp => sp.title))
          w.humanResponse
        let selectedProductIndex ← getSelectedProduct w.chooseC selectedProducts selectedOption
        match jsGet selectedProducts (jsSub1 selectedProductIndex) with
        | some selectedProduct => do
          clickProduct w.clickCard selectedProduct
          clickBuyNow w.buyUrl w.buyBtn
        | none => do
          sendMsg "⚠️ Selected product not found, using first available product"
          match selectedProducts.head? with
          | some sp0 => do
            clickProduct w.clickCard sp0
            clickBuyNow w.buyUrl w.buyBtn
          -- unreachable under the `selectedProducts.length > 0` guard: the
          -- JavaScript would crash reading `.title` of `undefined`
          | none => throwE "TypeError: Cannot read properties of undefined (reading 'title')"
      else sendMsg "❌ No products could be selected for purchase."
  let caught := catchM body (fun e => sendMsg ("❌ Critical error in agent execution: " ++ e))
  (caught.1 ++ (if w.launchOk then [Event.browserClose] else []), caught.2)

end AgentTs

namespace Part017

/-- The original selection saved by `run` for a potential checkout retry
(`{selectedProduct, selectedOption, selectedProductIndex}`). -/
structure Selection where
  selectedProduct : Product
  selectedOption : String
  selectedProductIndex : JsNum

/-- The external world of one `part_017` run.  As `AgentTs.World`, plus the
label-simplification completion oracle `labelsC`, the `page.goBack()` outcome
`goBackE`, and a leading call index (1 = first checkout pass, 2 = the recovery
pass of `retryWithOriginalSelection`) on the `clickProduct`/`clickBuyNow`
oracles. -/
structure World where
  launchOk : Bool
  launchErr : String
  initErr : Option String
  genQueryC : Nat → Except String String
  searchA : Nat → Except String Unit
  extractCards : Nat → List (Option Product)
  rankC : Nat → Except String String
  labelsC : Nat → Except String String
  humanResponse : String
  chooseC : Nat → Except String String
  clickCard : Nat → Nat → Bool
  buyUrl : Nat → Nat → String
  buyBtn : Nat → Nat → Bool
  goBackE : Option String

/-- `initialize` (lines 78-110), as in the `agent.ts` variant. -/
def initBrowser (w : World) : M Unit :=
  if w.launchOk then
    match w.initErr with
    | some e => ([], Except.error e)
    | none => ([Event.goto "https://shop.app"], Except.ok ())
  else ([], Except.error w.launchErr)

/-- One attempt of `generateSearchQuery`. -/
def genQueryAttempt (genC : Nat → Except String String) (i : Nat) : M String := do
  emit (Event.llm "Generating search query")
  let content ← liftE (genC i)
  pure (trimStr content)

/-- `generateSearchQuery` (lines 161-194). -/
def generateSearchQuery (genC : Nat → Except String String) (userPrompt : String) : M String :=
  catchM
    (retryWithBackoff (genQueryAttempt genC) "Generating search query" 3)
    (fun _ => do
      sendMsg (" Failed to generate search query, using original prompt: " ++ userPrompt)
      pure userPrompt)

/-- `navigateToShopApp` (lines 196-201). -/
def navigateToShopApp : M Unit :=
  sendMsgD "Shop.app has been selected for this query!"
    ["routed to https://shop.app", "setup agent metadata"]

/-- One attempt of `performSearch`. -/
def searchAttempt (searchA : Nat → Except String Unit) (searchQuery : String) (i : Nat) :
    M Unit := do
  emit (Event.goto ("https://shop.app/search/results?query="
    ++ encodeURIComponent searchQuery))
  sendMsg "Waiting for search results to load..."
  liftE (searchA i)

/-- `performSearch` (lines 203-215). -/
def performSearch (searchA : Nat → Except String Unit) (searchQuery : String) : M Unit := do
  sendMsgD ("Query ready! searching shop.app with \"" ++ searchQuery ++ "\"")
    ["configuring encoding", "routing to correct search endpoint"]
  retryWithBackoff (searchAttempt searchA searchQuery) "Search operation" 3

/-- `extractProducts` (lines 217-273). -/
def extractProducts (cards : Nat → List (Option Product)) : M (List Product) := do
  sendMsgD "Gathering items from shop.app search results"
    ["parsing search results", "extracting product information"]
  retryWithBackoff (extractAttempt cards) "Product extraction" 3

/-- One attempt of `selectBestProducts`: as the `agent.ts` variant, plus the
final `if (selectedProducts.length !== 5) selectedProducts = selectedProducts.slice(0, 5)`. -/
def rankAttempt (rankC : Nat → Except String String) (products : List Product) (i : Nat) :
    M (List Product) := do
  emit (Event.llm "Selecting best products")
  let content ← liftE (rankC i)
  let selected := selectLoop products (cleanLines content) []
  pure (if selected.length ≠ 5 then selected.take 5 else selected)

/-- `selectBestProducts` (lines 275-355). -/
def selectBestProducts (rankC : Nat → Except String String) (products : List Product)
    (_userPrompt : String) : M (List Product) := do
  sendMsgD ("Picking best items from " ++ toString products.length ++ " products")
    ["ranking products", "selecting best matches from user prompt"]
  if products.length = 0 then pure []
  else
    catchM
      (retryWithBackoff (rankAttempt rankC products) "Selecting best products" 3)
      (fun _ => do
        sendMsg "Failed to select best products, using first 5 products"
        pure (products.take 5))

/-- `clickProduct` (lines 357-401), identical to the `agent.ts` variant. -/
def clickProduct (findCard : Nat → Bool) (product : Product) : M Unit :=
  retryWithBackoff (clickAttempt findCard product) ("Clicking product: " ++ product.title) 3

/-- `takeScreenshot` (lines 490-506). -/
def takeScreenshot : M Unit := do
  emit Event.screenshot
  sendMsgD "Checkout reached"
    ["routing to checkout page", "taking screenshot of checkout page for confirmation"]
  emit Event.image
  sendMsg "Your order has been set up successfully!"

/-- One attempt of `clickBuyNow` (`part_017` variant of the screenshot). -/
def buyNowAttempt (url : Nat → String) (btn : Nat → Bool) (i : Nat) : M Unit := do
  emit Event.readUrl
  if !startsWithJS (url i) "https://shop.app/products/" then
    throwE ("Not on a product page. Current URL: " ++ url i
      ++ ". Buy now button only available on product pages.")
  else if btn i then do
    emit Event.buyClick
    takeScreenshot
  else throwE "Buy now button not found with any selector"

/-- `clickBuyNow` (lines 403-466): as the `agent.ts` variant but run with
`maxRetries = 1` (`// Only 1 retry for the main flow`). -/
def clickBuyNow (url : Nat → String) (btn : Nat → Bool) : M Unit := do
  sendMsg "Heading to checkout"
  retryWithBackoff (buyNowAttempt url btn) "Clicking buy now button" 1

/-- `retryWithOriginalSelection` (lines 468-488): go back to the results page,
announce the replay, re-click the very same saved product and retry checkout;
any error inside is reported and rethrown. -/
def retryWithOriginalSelection (goBackE : Option String) (clickCard2 : Nat → Bool)
    (buyUrl2 : Nat → String) (buyBtn2 : Nat → Bool) (originalSelection : Selection) : M Unit := do
  sendMsg "ðŸ”„ Buy now failed, going back to search results to try again..."
  catchM
    (do
      emit Event.goBack
      liftOpt goBackE
      sendMsg ("ðŸ”„ Retrying with the same selection: "
        ++ originalSelection.selectedProduct.title)
      clickProduct clickCard2 originalSelection.selectedProduct
      clickBuyNow buyUrl2 buyBtn2)
    (fun e => do
      sendMsg (" Retry failed: " ++ e)
      throwE e)

/-- One attempt of `getSelectedProduct`: `parseInt(content || '0')`. -/
def chooseAttempt (chooseC : Nat → Except String String) (i : Nat) : M JsNum := do
  emit (Event.llm "Getting selected product")
  let content ← liftE (chooseC i)
  pure (parseIntJS (jsOrStr content "0"))

/-- `getSelectedProduct` (lines 508-550): as the `agent.ts` variant, except the
completion text goes through `content || '0'` before `parseInt`. -/
def getSelectedProduct (chooseC : Nat → Except String String) (_selectedProducts : List Product)
    (_selectedOption : String) : M JsNum :=
  catchM
    (retryWithBackoff (chooseAttempt chooseC) "Getting selected product" 3)
    (fun _ => do
      sendMsg " Failed to parse product selection, defaulting to first product"
      pure (some 1))

/-- One attempt of `turnSelectedProductsIntoReadableNames`. -/
def labelsAttempt (labelsC : Nat → Except String String) (i : Nat) : M (List String) := do
  emit (Event.llm "Turning selected products into readable names")
  let content ← liftE (labelsC i)
  pure ((splitNl content).map (fun l => trimStr l))

/-- `turnSelectedProductsIntoReadableNames` (lines 552-584): asks the
completion service for simplified labels and returns the trimmed lines of the
answer as they are — no count check, no empty-line filter, and no catch (an
exhausted retry propagates). -/
def turnSelectedProductsIntoReadableNames (labelsC : Nat → Except String String)
    (_selectedProducts : List Product) : M (List String) :=
  retryWithBackoff (labelsAttempt labelsC) "Turning selected products into readable names" 3

/-- `run` (lines 586-681): the end-to-end pipeline of `part_017`, with the
readable-name stage, the checkout recovery hook, and the `try/catch/finally`.
The `else` branch at lines 645-668 (`Selected product not found ...`) is dead
code — it is guarded by `if (selectedProduct)` after a throw already ruled the
`undefined` case out — and is therefore not part of the embedding. -/
def run (w : World) (userPrompt : String) : M Unit :=
  let body : M Unit := do
    initBrowser w
    let searchQuery ← generateSearchQuery w.genQueryC userPrompt
    navigateToShopApp
    performSearch w.searchA searchQuery
    let products ← extractProducts w.extractCards
    if products.length = 0 then
      sendMsg " No products found. The search might have failed or the page structure changed."
    else do
      let selectedProducts ← selectBestProducts w.rankC products userPrompt
      let readableNames ← turnSelectedProductsIntoReadableNames w.labelsC selectedProducts
      if selectedProducts.length > 0 then do
        let selectedOption ← sendOptionsM readableNames w.humanResponse
        let selectedProductIndex ← getSelectedProduct w.chooseC selectedProducts selectedOption
        sendMsgD "User selected a product!"
          ["user selected product as best match", "routing to correct product page"]
        match resolveChosen selectedProducts selectedProductIndex with
        | none => throwE "No products available for selection"
        | some selectedProduct => do
          let originalSelection : Selection :=
            ⟨selectedProduct, selectedOption, selectedProductIndex⟩
          clickProduct (w.clickCard 1) selectedProduct
          catchM (clickBuyNow (w.buyUrl 1) (w.buyBtn 1))
            (fun e =>
              if strIncludes e "Clicking buy now button failed after" then
                retryWithOriginalSelection w.goBackE (w.clickCard 2) (w.buyUrl 2) (w.buyBtn 2)
                  originalSelection
              else throwE e)
      else sendMsg "No products could be selected for purchase."
  let caught := catchM body (fun e => sendMsg ("Critical error in agent execution: " ++ e))
  (caught.1 ++ (if w.launchOk then [Event.browserClose] else []), caught.2)

end Part017

/-! ### Helper lemmas: substrings, the selection loop, retry convenience forms -/

theorem leadsWith_self_append : ∀ (n t : List Char), leadsWith n (n ++ t) = true := by
  intro n
  induction n with
  | nil => intro t; simp [leadsWith]
  | cons a as ih => intro t; simp [leadsWith, ih]

theorem hasSeg_self_append (n t : List Char) : hasSeg n (n ++ t) = true := by
  cases n with
  | nil => cases t <;> simp [hasSeg, leadsWith, List.isEmpty]
  | cons a as =>
    simp only [List.cons_append, hasSeg, Bool.or_eq_true]
    exact Or.inl (by simpa using leadsWith_self_append (a :: as) t)

/-- A string made by appending to `n` on the right contains `n`. -/
theorem strIncludes_pre (n b : String) : strIncludes (n ++ b) n = true := by
  simpa [strIncludes, String.toList] using hasSeg_self_append n.data b.data

theorem leadsWith_append_right : ∀ (n h t : List Char),
    leadsWith n h = true → leadsWith n (h ++ t) = true := by
  intro n
  induction n with
  | nil => intro h t _; simp [leadsWith]
  | cons a as ih =>
    intro h t hl
    cases h with
    | nil => simp [leadsWith] at hl
    | cons b bs =>
      simp [leadsWith] at hl ⊢
      exact ⟨hl.1, ih bs t hl.2⟩

theorem hasSeg_append_right : ∀ (n h t : List Char),
    hasSeg n h = true → hasSeg n (h ++ t) = true := by
  intro n h
  induction h with
  | nil =>
    intro t hh
    simp [hasSeg, List.isEmpty_iff] at hh
    subst hh
    exact hasSeg_self_append [] t
  | cons c cs ih =>
    intro t hh
    simp only [hasSeg, Bool.or_eq_true] at hh
    rcases hh with hl | hs
    · simp only [List.cons_append, hasSeg, Bool.or_eq_true]
      exact Or.inl (leadsWith_append_right n (c :: cs) t hl)
    · simp only [List.cons_append, hasSeg, Bool.or_eq_true]
      exact Or.inr (ih t hs)

/-- Substring containment survives appending on the right. -/
theorem strIncludes_append_right (a b n : String) (h : strIncludes a n = true) :
    strIncludes (a ++ b) n = true := by
  simpa [strIncludes, String.toList] using hasSeg_append_right n.data a.data b.data h

/-- Everything `selectLoop` adds to its accumulator is one of the candidates. -/
theorem selectLoop_mem (products : List Product) :
    ∀ (ts : List String) (acc : List Product),
      (∀ x ∈ acc, x ∈ products) → ∀ x ∈ selectLoop products ts acc, x ∈ products := by
  intro ts
  induction ts with
  | nil => intro acc hacc x hx; exact hacc x hx
  | cons t ts ih =>
    intro acc hacc x hx
    rcases hfind : findByTitle products t with _ | p
    · simp only [selectLoop, hfind] at hx
      exact ih acc hacc x hx
    · simp only [selectLoop, hfind] at hx
      by_cases hlen : acc.length < 5
      · rw [if_pos hlen] at hx
        refine ih (acc ++ [p]) ?_ x hx
        intro y hy
        rcases List.mem_append.1 hy with hy | hy
        · exact hacc y hy
        · simp at hy
          subst hy
          exact List.mem_of_find?_eq_some hfind
      · rw [if_neg hlen] at hx
        exact ih acc hacc x hx

/-- Specification-side characterisation of the ranking result (§4.4 of the
spec): the candidates matched by the returned lines, in order. -/
def specMatchedItems (products : List Product) (content : String) : List Product :=
  (cleanLines content).filterMap (findByTitle products)

/-- `selectLoop` keeps the matched candidates in order and stops adding at 5:
it equals the matched-item list truncated to what still fits. -/
theorem selectLoop_eq_take (products : List Product) :
    ∀ (ts : List String) (acc : List Product), acc.length ≤ 5 →
      selectLoop products ts acc
        = acc ++ (ts.filterMap (findByTitle products)).take (5 - acc.length) := by
  intro ts
  induction ts with
  | nil => intro acc _; simp [selectLoop]
  | cons t ts ih =>
    intro acc hacc
    rcases hfind : findByTitle products t with _ | p
    · simp only [selectLoop, List.filterMap_cons, hfind]
      exact ih acc hacc
    · simp only [selectLoop, List.filterMap_cons, hfind]
      by_cases hlen : acc.length < 5
      · rw [if_pos hlen, ih (acc ++ [p]) (by simp; omega)]
        have h5 : 5 - acc.length = (5 - (acc ++ [p]).length) + 1 := by simp; omega
        rw [h5, List.take_succ_cons]
        simp
      · rw [if_neg hlen, ih acc hacc]
        have h5 : 5 - acc.length = 0 := by omega
        simp [h5]

/-- The ranking loop, started empty, returns the first five matched items. -/
theorem selectLoop_take5 (products : List Product) (content : String) :
    selectLoop products (cleanLines content) []
      = (specMatchedItems products content).take 5 := by
  rw [selectLoop_eq_take products (cleanLines content) [] (by simp)]
  simp [specMatchedItems]

/-- The ranking loop never returns more than five items. -/
theorem selectLoop_length_le (products : List Product) (content : String) :
    (selectLoop products (cleanLines content) []).length ≤ 5 := by
  rw [selectLoop_take5]
  exact List.length_take_le ..

/-- Convenience form of `retryGo_first_ok` at the top level. -/
theorem retryCore_first_ok (failPre retryPre : String) (op : Nat → M α) (name : String)
    (maxRetries base : Nat) (evs : List Event) (v : α)
    (hm : 1 ≤ maxRetries) (h : op 1 = (evs, Except.ok v)) :
    retryCore failPre retryPre op name maxRetries base = (evs, Except.ok v) := by
  obtain ⟨f, rfl⟩ : ∃ f, maxRetries = f + 1 := ⟨maxRetries - 1, by omega⟩
  exact retryGo_first_ok failPre retryPre op name (f + 1) base 1 f none evs v h

/-- If every attempt's result is an error, the supervisor raises. -/
theorem retryGo_all_err (failPre retryPre : String) (op : Nat → M α) (name : String)
    (maxRetries base : Nat) (hop : ∀ i, ∃ e, (op i).2 = Except.error e) :
    ∀ (fuel attempt : Nat) (lastErr : Option String),
      ∃ e2, (retryGo failPre retryPre op name maxRetries base attempt fuel lastErr).2
        = Except.error e2 := by
  intro fuel
  induction fuel with
  | zero =>
    intro attempt lastErr
    exact ⟨exhaustMsg name maxRetries lastErr, by simp [retryGo]⟩
  | succ f ih =>
    intro attempt lastErr
    obtain ⟨e, he⟩ := hop attempt
    rcases hpair : op attempt with ⟨evs, r⟩
    rw [hpair] at he
    simp only at he
    subst he
    by_cases hf : f = 0
    · subst hf
      refine ⟨exhaustMsg name maxRetries (some e), ?_⟩
      simp [retryGo, hpair]
    · obtain ⟨e2, he2⟩ := ih (attempt + 1) (some e)
      refine ⟨e2, ?_⟩
      simp only [retryGo, hpair, if_neg hf]
      exact he2

theorem hasSeg_append_left : ∀ (n h t : List Char), hasSeg n t = true → hasSeg n (h ++ t) = true := by
  intro n h
  induction h with
  | nil => intro t ht; simpa using ht
  | cons c cs ih =>
    intro t ht
    simp only [List.cons_append, hasSeg, Bool.or_eq_true]
    exact Or.inr (ih t ht)

/-- A string made by appending `n` on the right contains `n`. -/
theorem strIncludes_suf (a n : String) : strIncludes (a ++ n) n = true := by
  have h : hasSeg n.data (n.data ++ []) = true := hasSeg_self_append n.data []
  simp only [List.append_nil] at h
  simpa [strIncludes, String.toList] using hasSeg_append_left n.data a.data n.data h

/-- The terminal retry error names the failed operation. -/
theorem exhaustMsg_includes_name (name : String) (m : Nat) (le : Option String) :
    strIncludes (exhaustMsg name m le) name = true := by
  have h : exhaustMsg name m le
      = name ++ (" failed after " ++ toString m ++ " attempts. Last error: "
          ++ (match le with | some e => e | none => "undefined")) := by
    simp [exhaustMsg, String.append_assoc]
  rw [h]
  exact strIncludes_pre name _

/-- The terminal retry error carries the last underlying error. -/
theorem exhaustMsg_includes_err (name : String) (m : Nat) (e : String) :
    strIncludes (exhaustMsg name m (some e)) e = true := by
  have h : exhaustMsg name m (some e)
      = (name ++ " failed after " ++ toString m ++ " attempts. Last error: ") ++ e := by
    simp [exhaustMsg, String.append_assoc]
  rw [h]
  exact strIncludes_suf _ e

/-- A pure retried operation: fails with `fails[i-1]` on attempt `i` while
`i ≤ fails.length`, then succeeds with `v` (no events of its own). -/
def opSeq (fails : List String) (v : α) : Nat → M α := fun i =>
  if i ≤ fails.length then ([], Except.error (fails.getD (i - 1) ""))
  else ([], Except.ok v)

/-- A pure retried operation failing on every attempt with `ef i`. -/
def opFail {α : Type} (ef : Nat → String) : Nat → M α := fun i => ([], Except.error (ef i))

/-- Claim C3: for every operation run through the Retry Supervisor
(`retryWithBackoff`, embedded as `retryCore` and instantiated by both agent
variants) with attempt cap `maxAttempts` and base delay `base`:

* an operation that fails `k < maxAttempts` times and then succeeds yields the
  success value, with a trace of exactly the `k` failure blocks (`blocksFrom`,
  three events per failed attempt: one failure-report message, one backoff
  notice, one sleep — so exactly `k` warning messages, trace length `3 * k`),
  and the sleep after failed attempt `i` lasts `base * 2 ^ (i - 1)` ms;
* an operation that fails on every attempt yields `maxAttempts` failure blocks
  (`failBlocksFrom`, the final one without notice/sleep, trace length
  `3 * maxAttempts - 2`, hence exactly `maxAttempts` warning messages) and then
  raises a terminal error that names the operation and the last underlying
  error. -/
theorem c3_retry_supervisor {α : Type} (failPre retryPre name : String)
    (base maxAttempts : Nat) (fails : List String) (v : α) (ef : Nat → String) :
    (fails.length < maxAttempts →
      retryCore failPre retryPre (opSeq fails v) name maxAttempts base
        = (blocksFrom failPre retryPre name maxAttempts base (fun _ => [])
            (fun i => fails.getD (i - 1) "") 1 fails.length, Except.ok v)
      ∧ (blocksFrom failPre retryPre name maxAttempts base (fun _ => [])
            (fun i => fails.getD (i - 1) "") 1 fails.length).length = 3 * fails.length
      ∧ (blocksFrom failPre retryPre name maxAttempts base (fun _ => [])
            (fun i => fails.getD (i - 1) "") 1 fails.length).filter isWait
          = (List.range fails.length).map (fun j => Event.wait (base * 2 ^ j)))
    ∧ (1 ≤ maxAttempts →
      retryCore failPre retryPre (opFail ef : Nat → M α) name maxAttempts base
        = (failBlocksFrom failPre retryPre name maxAttempts base (fun _ => []) ef 1 maxAttempts,
           Except.error (exhaustMsg name maxAttempts (some (ef maxAttempts))))
      ∧ (failBlocksFrom failPre retryPre name maxAttempts base (fun _ => []) ef 1
          maxAttempts).length = 3 * maxAttempts - 2
      ∧ strIncludes (exhaustMsg name maxAttempts (some (ef maxAttempts))) name = true
      ∧ strIncludes (exhaustMsg name maxAttempts (some (ef maxAttempts))) (ef maxAttempts)
          = true) := by
  constructor
  · intro hk
    refine ⟨?_, blocksFrom_pure_length .., ?_⟩
    · have h := retryGo_after_k failPre retryPre (opSeq fails v) name maxAttempts base
        (fun _ => []) (fun i => fails.getD (i - 1) "") fails.length 1 maxAttempts none [] v hk
        (fun j hj => by simp [opSeq, Nat.succ_le_of_lt hj, Nat.add_comm 1 j])
        (by simp [opSeq, Nat.add_comm 1 fails.length])
      simpa [retryCore] using h
    · have h := blocksFrom_filter_wait failPre retryPre name maxAttempts base
        (fun i => fails.getD (i - 1) "") fails.length 1 le_rfl
      simpa using h
  · intro hm
    refine ⟨?_, failBlocksFrom_pure_length failPre retryPre name maxAttempts base ef
        maxAttempts 1 hm, exhaustMsg_includes_name .., exhaustMsg_includes_err ..⟩
    have h := retryGo_all_fail failPre retryPre (opFail ef : Nat → M α) name maxAttempts base
      (fun _ => []) ef (fun j => rfl) maxAttempts 1 none hm (by omega)
    simpa [retryCore] using h

/-- Witness for C3 at concrete inputs: two failures then success with cap 3,
and an always-failing operation with cap 2. -/
theorem c3_retry_supervisor_witness :
    retryCore "x" "y" (opSeq ["e1", "e2"] 7) "Op" 3 1000
      = (blocksFrom "x" "y" "Op" 3 1000 (fun _ => [])
          (fun i => ["e1", "e2"].getD (i - 1) "") 1 2, Except.ok 7)
    ∧ retryCore "x" "y" (opFail (fun i => toString i) : Nat → M Nat) "Op" 2 1000
      = (failBlocksFrom "x" "y" "Op" 2 1000 (fun _ => []) (fun i => toString i) 1 2,
         Except.error (exhaustMsg "Op" 2 (some (toString 2)))) :=
  ⟨((c3_retry_supervisor "x" "y" "Op" 1000 3 ["e1", "e2"] 7 (fun i => toString i)).1
      (by decide)).1,
   ((c3_retry_supervisor "x" "y" "Op" 1000 2 [] 7 (fun i => toString i)).2 (by decide)).1⟩

/-- A successful ranking attempt of `agent.ts` is `selectLoop` applied to a
successful completion text. -/
theorem rankAttempt_snd_ok_A (rankC : Nat → Except String String) (products : List Product)
    (i : Nat) (v : List Product) (h : (AgentTs.rankAttempt rankC products i).2 = Except.ok v) :
    ∃ c, rankC i = Except.ok c ∧ v = selectLoop products (cleanLines c) [] := by
  rcases hc : rankC i with e | c
  · simp [AgentTs.rankAttempt, hc, M.bind] at h
  · refine ⟨c, rfl, ?_⟩
    simp [AgentTs.rankAttempt, hc, M.bind] at h
    exact h.symm

/-- A successful ranking attempt of `part_017` is `selectLoop` plus the final
crop applied to a successful completion text. -/
theorem rankAttempt_snd_ok_P (rankC : Nat → Except String String) (products : List Product)
    (i : Nat) (v : List Product) (h : (Part017.rankAttempt rankC products i).2 = Except.ok v) :
    ∃ c, rankC i = Except.ok c
      ∧ v = (if (selectLoop products (cleanLines c) []).length ≠ 5 then
              (selectLoop products (cleanLines c) []).take 5
            else selectLoop products (cleanLines c) []) := by
  rcases hc : rankC i with e | c
  · simp [Part017.rankAttempt, hc, M.bind] at h
  · refine ⟨c, rfl, ?_⟩
    simp only [Part017.rankAttempt, hc, bind_eq, pure_eq, M.bind, liftE_def, emit_def,
      List.nil_append, List.append_nil] at h
    exact (Except.ok.injEq .. ▸ h).symm

/-- Claim C5: for every candidate set and every completion-service behaviour
(including failure on every attempt), `selectBestProducts` of either agent
variant returns (never throws) a list whose every member is a member of the
input candidate set and whose length is at most 5; moreover the list resolved
from a completion response is exactly the matched candidates truncated to the
first five — fewer than five matches are returned as they are, never padded. -/
theorem c5_rank_members_and_bound :
    (∀ (rankC : Nat → Except String String) (products : List Product) (up : String),
      ∃ l, (AgentTs.selectBestProducts rankC products up).2 = Except.ok l
        ∧ (∀ x ∈ l, x ∈ products) ∧ l.length ≤ 5)
    ∧ (∀ (rankC : Nat → Except String String) (products : List Product) (up : String),
      ∃ l, (Part017.selectBestProducts rankC products up).2 = Except.ok l
        ∧ (∀ x ∈ l, x ∈ products) ∧ l.length ≤ 5)
    ∧ (∀ (products : List Product) (content : String),
      selectLoop products (cleanLines content) []
        = (specMatchedItems products content).take 5) := by
  refine ⟨?_, ?_, fun products content => selectLoop_take5 products content⟩
  · intro rankC products up
    by_cases h0 : products.length = 0
    · refine ⟨[], ?_, by simp, by simp⟩
      simp [AgentTs.selectBestProducts, h0, M.bind]
    · rcases hR : AgentTs.retryWithBackoff (AgentTs.rankAttempt rankC products)
        "Selecting best products" 3 with ⟨t, r⟩
      rcases r with e | v
      · refine ⟨products.take 5, ?_, fun x hx => List.take_subset 5 products hx,
          List.length_take_le ..⟩
        simp [AgentTs.selectBestProducts, h0, hR, M.bind]
      · have hR2 : retryCore "❌ " "⏳ Retrying in " (AgentTs.rankAttempt rankC products)
            "Selecting best products" 3 1000 = (t, Except.ok v) := hR
        obtain ⟨i, hi⟩ := retryCore_ok_source _ _ _ _ _ _ t v hR2
        obtain ⟨c, _, hv⟩ := rankAttempt_snd_ok_A rankC products i v hi
        subst hv
        refine ⟨_, ?_, selectLoop_mem products (cleanLines c) [] (by simp),
          selectLoop_length_le products c⟩
        simp [AgentTs.selectBestProducts, h0, hR, M.bind]
  · intro rankC products up
    by_cases h0 : products.length = 0
    · refine ⟨[], ?_, by simp, by simp⟩
      simp [Part017.selectBestProducts, h0, M.bind]
    · rcases hR : Part017.retryWithBackoff (Part017.rankAttempt rankC products)
        "Selecting best products" 3 with ⟨t, r⟩
      rcases r with e | v
      · refine ⟨products.take 5, ?_, fun x hx => List.take_subset 5 products hx,
          List.length_take_le ..⟩
        simp [Part017.selectBestProducts, h0, hR, M.bind]
      · have hR2 : retryCore "" "\xE2\xB3 Retrying in " (Part017.rankAttempt rankC products)
            "Selecting best products" 3 1000 = (t, Except.ok v) := hR
        obtain ⟨i, hi⟩ := retryCore_ok_source _ _ _ _ _ _ t v hR2
        obtain ⟨c, _, hv⟩ := rankAttempt_snd_ok_P rankC products i v hi
        subst hv
        refine ⟨(if (selectLoop products (cleanLines c) []).length ≠ 5 then
            (selectLoop products (cleanLines c) []).take 5
          else selectLoop products (cleanLines c) []), ?_, ?_, ?_⟩
        · simp [Part017.selectBestProducts, h0, hR, M.bind]
        · intro x hx
          by_cases h5 : (selectLoop products (cleanLines c) []).length ≠ 5
          · rw [if_pos h5] at hx
            exact selectLoop_mem products (cleanLines c) [] (by simp) x
              (List.take_subset 5 _ hx)
          · rw [if_neg h5] at hx
            exact selectLoop_mem products (cleanLines c) [] (by simp) x hx
        · by_cases h5 : (selectLoop products (cleanLines c) []).length ≠ 5
          · rw [if_pos h5]
            exact List.length_take_le ..
          · rw [if_neg h5]
            exact selectLoop_length_le products c

instance {ε α : Type} [DecidableEq ε] [DecidableEq α] : DecidableEq (Except ε α)
  | Except.error a, Except.error b =>
    if h : a = b then isTrue (by rw [h]) else isFalse (by intro hh; cases hh; exact h rfl)
  | Except.error _, Except.ok _ => isFalse (by intro h; cases h)
  | Except.ok _, Except.error _ => isFalse (by intro h; cases h)
  | Except.ok a, Except.ok b =>
    if h : a = b then isTrue (by rw [h]) else isFalse (by intro hh; cases hh; exact h rfl)

/-- The concrete candidate used by the duplication counterexample. -/
def pBlueShirt : Product :=
  ⟨"blue shirt", "Acme", "$5", 4, 0, "https://shop.app/products/blue-shirt"⟩

/-- A second concrete candidate. -/
def pRedHat : Product :=
  ⟨"red hat", "Acme", "$7", 5, 0, "https://shop.app/products/red-hat"⟩

/-- Claim C10: `selectBestProducts` performs no deduplication — when the
completion response repeats a line matching the same candidate title, the same
`Product` occupies more than one position of the result, in both variants. -/
theorem c10_no_dedup :
    (AgentTs.selectBestProducts (fun _ => Except.ok "blue shirt\nblue shirt")
        [pBlueShirt, pRedHat] "a shirt").2 = Except.ok [pBlueShirt, pBlueShirt]
    ∧ (Part017.selectBestProducts (fun _ => Except.ok "blue shirt\nblue shirt")
        [pBlueShirt, pRedHat] "a shirt").2 = Except.ok [pBlueShirt, pBlueShirt]
    ∧ [pBlueShirt, pBlueShirt].count pBlueShirt = 2 := by
  refine ⟨?_, ?_, by decide⟩ <;> decide

/-- If the handler always returns a value, `catchM` never throws. -/
theorem catchM_snd_ok_of_handler (x : M α) (h : String → M α)
    (hh : ∀ e, ∃ r, (h e).2 = Except.ok r) : ∃ r, (catchM x h).2 = Except.ok r := by
  rcases x with ⟨t, r⟩
  rcases r with e | a
  · obtain ⟨r, hr⟩ := hh e
    exact ⟨r, by simpa using hr⟩
  · exact ⟨a, rfl⟩

/-- Claim C1 counterexample: with two candidates (`N = 2`) and a free-text
response relayed verbatim, a completion answer of `"99"` makes
`getSelectedProduct` return `99` — outside `[1, N]` — in both variants, and a
non-numeric completion answer makes the `part_017` variant return `NaN`
(`none`); the deterministic fallback to index 1 does not happen in either
case.  This refutes the claim that the result is always an index in `[1, N]`
and that unparsable in-range results map to 1. -/
theorem c1_counterexample :
    (AgentTs.getSelectedProduct (fun _ => Except.ok "99") [pBlueShirt, pRedHat] "99").2
        = Except.ok (some 99)
    ∧ (Part017.getSelectedProduct (fun _ => Except.ok "99") [pBlueShirt, pRedHat] "99").2
        = Except.ok (some 99)
    ∧ (Part017.getSelectedProduct (fun _ => Except.ok "no idea") [pBlueShirt, pRedHat] "x").2
        = Except.ok none
    ∧ ¬((1 : Int) ≤ 99 ∧ (99 : Int) ≤ ([pBlueShirt, pRedHat] : List Product).length) := by
  refine ⟨?_, ?_, ?_, ?_⟩ <;> decide

/-- Claim C1 as amended: `getSelectedProduct` never throws; when the
completion-service retries are exhausted it deterministically returns index 1;
but a completion response that does arrive is passed through `parseInt`
unclamped (`agent.ts`: `parseInt(content)`; `part_017`:
`parseInt(content || '0')`), so out-of-range or `NaN` results are returned
as they are — the in-range guarantee holds only when the completion text
itself parses to an in-range number.  (Out-of-range indices are compensated
downstream in `run`, which falls back to the first product.) -/
theorem c1_amended_selection_parse (chooseC : Nat → Except String String)
    (sel : List Product) (sOpt : String) :
    (∃ r, (AgentTs.getSelectedProduct chooseC sel sOpt).2 = Except.ok r)
    ∧ (∃ r, (Part017.getSelectedProduct chooseC sel sOpt).2 = Except.ok r)
    ∧ ((∀ i, ∃ e, chooseC i = Except.error e) →
        (AgentTs.getSelectedProduct chooseC sel sOpt).2 = Except.ok (some 1)
        ∧ (Part017.getSelectedProduct chooseC sel sOpt).2 = Except.ok (some 1))
    ∧ (∀ s, chooseC 1 = Except.ok s →
        (AgentTs.getSelectedProduct chooseC sel sOpt).2 = Except.ok (parseIntJS s)
        ∧ (Part017.getSelectedProduct chooseC sel sOpt).2
            = Except.ok (parseIntJS (jsOrStr s "0"))) := by
  refine ⟨?_, ?_, ?_, ?_⟩
  · exact catchM_snd_ok_of_handler _ _ (fun e => ⟨some 1, rfl⟩)
  · exact catchM_snd_ok_of_handler _ _ (fun e => ⟨some 1, rfl⟩)
  · intro hall
    have hopA : ∀ i, ∃ e, (AgentTs.chooseAttempt chooseC i).2 = Except.error e := by
      intro i
      obtain ⟨e, he⟩ := hall i
      exact ⟨e, by simp [AgentTs.chooseAttempt, he, M.bind]⟩
    have hopP : ∀ i, ∃ e, (Part017.chooseAttempt chooseC i).2 = Except.error e := by
      intro i
      obtain ⟨e, he⟩ := hall i
      exact ⟨e, by simp [Part017.chooseAttempt, he, M.bind]⟩
    constructor
    · obtain ⟨e2, he2⟩ := retryGo_all_err "❌ " "⏳ Retrying in " (AgentTs.chooseAttempt chooseC)
        "Getting selected product" 3 1000 hopA 3 1 none
      rcases hR : retryGo "❌ " "⏳ Retrying in " (AgentTs.chooseAttempt chooseC)
          "Getting selected product" 3 1000 1 3 none with ⟨t, r⟩
      rw [hR] at he2
      simp only at he2
      subst he2
      simp [AgentTs.getSelectedProduct, AgentTs.retryWithBackoff, retryCore, hR, M.bind]
    · obtain ⟨e2, he2⟩ := retryGo_all_err "" "\xE2\xB3 Retrying in " (Part017.chooseAttempt chooseC)
        "Getting selected product" 3 1000 hopP 3 1 none
      rcases hR : retryGo "" "\xE2\xB3 Retrying in " (Part017.chooseAttempt chooseC)
          "Getting selected product" 3 1000 1 3 none with ⟨t, r⟩
      rw [hR] at he2
      simp only at he2
      subst he2
      simp [Part017.getSelectedProduct, Part017.retryWithBackoff, retryCore, hR, M.bind]
  · intro s hs
    constructor
    · have hop : AgentTs.chooseAttempt chooseC 1
          = ([Event.llm "Getting selected product"], Except.ok (parseIntJS s)) := by
        simp [AgentTs.chooseAttempt, hs, M.bind]
      have h := retryCore_first_ok "❌ " "⏳ Retrying in " (AgentTs.chooseAttempt chooseC)
        "Getting selected product" 3 1000 _ _ (by omega) hop
      simp [AgentTs.getSelectedProduct, AgentTs.retryWithBackoff, retryCore] at h ⊢
      simp [h]
    · have hop : Part017.chooseAttempt chooseC 1
          = ([Event.llm "Getting selected product"], Except.ok (parseIntJS (jsOrStr s "0"))) := by
        simp [Part017.chooseAttempt, hs, M.bind]
      have h := retryCore_first_ok "" "\xE2\xB3 Retrying in " (Part017.chooseAttempt chooseC)
        "Getting selected product" 3 1000 _ _ (by omega) hop
      simp [Part017.getSelectedProduct, Part017.retryWithBackoff, retryCore] at h ⊢
      simp [h]

/-- Witness for the amended C1: an always-failing completion service yields
index 1; a completion answer of `" 42nd"` yields the unclamped 42. -/
theorem c1_amended_witness :
    (AgentTs.getSelectedProduct (fun _ => Except.error "down") [pBlueShirt] "x").2
        = Except.ok (some 1)
    ∧ (AgentTs.getSelectedProduct (fun _ => Except.ok " 42nd") [pBlueShirt] "x").2
        = Except.ok (some 42) := by
  constructor
  · exact ((c1_amended_selection_parse (fun _ => Except.error "down") [pBlueShirt] "x").2.2.1
      (fun i => ⟨"down", rfl⟩)).1
  · have h := ((c1_amended_selection_parse (fun _ => Except.ok " 42nd") [pBlueShirt] "x").2.2.2
      " 42nd" rfl).1
    rw [h]
    decide

/-- Claim C6: whenever the chooser stage runs with a non-empty ranked
selection, the pipeline commits to exactly one chosen product
(`resolveChosen`, the `selectedProducts[idx - 1] ?? selectedProducts[0]`
logic of both `run` variants): the result always exists and is a member of
the selection; a `NaN` or out-of-range index deterministically falls back to
the first entry; an in-range index selects that entry. -/
theorem c6_chooser_always_resolves (sel : List Product) (idx : JsNum) (hne : sel ≠ []) :
    (∃ p, resolveChosen sel idx = some p ∧ p ∈ sel)
    ∧ (idx = none → resolveChosen sel idx = sel.head?)
    ∧ (∀ k : Int, idx = some k → (k < 1 ∨ (sel.length : Int) < k) →
        resolveChosen sel idx = sel.head?)
    ∧ (∀ k : Int, idx = some k → 1 ≤ k → k ≤ (sel.length : Int) →
        resolveChosen sel idx = sel.get? (k - 1).toNat) := by
  refine ⟨?_, ?_, ?_, ?_⟩
  · rcases hg : jsGet sel (jsSub1 idx) with _ | p
    · rcases sel with _ | ⟨a, rest⟩
      · exact absurd rfl hne
      · exact ⟨a, by simp [resolveChosen, hg], by simp⟩
    · refine ⟨p, by simp [resolveChosen, hg], ?_⟩
      rcases idx with _ | k
      · simp [jsGet, jsSub1] at hg
      · simp only [jsGet, jsSub1, Option.map_some'] at hg
        by_cases hneg : k - 1 < 0
        · rw [if_pos hneg] at hg
          cases hg
        · rw [if_neg hneg] at hg
          exact List.get?_mem hg
  · intro h
    subst h
    simp [resolveChosen, jsGet, jsSub1]
  · intro k hk hout
    subst hk
    have hg : jsGet sel (jsSub1 (some k)) = none := by
      simp only [jsGet, jsSub1, Option.map_some']
      by_cases hneg : k - 1 < 0
      · rw [if_pos hneg]
      · rw [if_neg hneg]
        rw [List.get?_eq_none]
        omega
    simp [resolveChosen, hg]
  · intro k hk h1 h2
    subst hk
    have hneg : ¬(k - 1 < 0) := by omega
    rcases hg : sel.get? (k - 1).toNat with _ | p
    · rw [List.get?_eq_none] at hg
      omega
    · have hg2 : sel[k.toNat - 1]? = some p := by
        have he : (k - 1).toNat = k.toNat - 1 := by omega
        rw [he] at hg
        rw [← List.get?_eq_getElem?]
        exact hg
      simp [resolveChosen, jsGet, jsSub1, hneg, hg2]

/-- Witness for C6: with two candidates and the out-of-range resolved index
99, the chooser still commits — to the first candidate. -/
theorem c6_witness :
    resolveChosen [pBlueShirt, pRedHat] (some 99) = some pBlueShirt
    ∧ pBlueShirt ∈ [pBlueShirt, pRedHat] := by
  have h := (c6_chooser_always_resolves [pBlueShirt, pRedHat] (some 99)
    (by decide)).2.2.1 99 rfl (Or.inr (by decide))
  refine ⟨by rw [h]; rfl, by decide⟩

set_option maxRecDepth 4096 in
/-- Claim C4 counterexample: in `agent.ts`, when the current location is not a
product-detail page, `clickBuyNow` does not fail fast — the precondition check
sits inside the Retry Supervisor, so the violated precondition is re-attempted:
the trace shows three `page.url()` reads (three attempts), and only after the
third does the wrapped terminal error surface. -/
theorem c4_counterexample :
    ((AgentTs.clickBuyNow (fun _ => "https://shop.app/search/results?query=shirt")
        (fun _ => true)).1.filter (fun e => e = Event.readUrl)).length = 3
    ∧ (AgentTs.clickBuyNow (fun _ => "https://shop.app/search/results?query=shirt")
        (fun _ => true)).2
      = Except.error ("Clicking buy now button failed after 3 attempts. Last error: Not on a product page. Current URL: https://shop.app/search/results?query=shirt. Buy now button only available on product pages.") := by
  constructor <;> decide

/-- Claim C4 as amended: `clickBuyNow` does check the product-detail-page
precondition on the current URL, but the check runs inside its retry wrapper:
a violation throws and is retried like any other failure — up to the default
3 attempts in `agent.ts`, and a single attempt in `part_017` (which passes
`maxRetries = 1`) — after which the wrapped terminal retry error surfaces; the
buy-now control is never clicked on such a run. -/
theorem c4_amended_precondition_in_retry (url : Nat → String) (btn : Nat → Bool)
    (h : ∀ i, startsWithJS (url i) "https://shop.app/products/" = false) :
    AgentTs.clickBuyNow url btn
      = (Event.msg "Heading to checkout" []
          :: failBlocksFrom "❌ " "⏳ Retrying in " "Clicking buy now button" 3 1000
               (fun _ => [Event.readUrl])
               (fun i => "Not on a product page. Current URL: " ++ url i
                 ++ ". Buy now button only available on product pages.") 1 3,
         Except.error (exhaustMsg "Clicking buy now button" 3
           (some ("Not on a product page. Current URL: " ++ url 3
             ++ ". Buy now button only available on product pages."))))
    ∧ Part017.clickBuyNow url btn
      = (Event.msg "Heading to checkout" []
          :: failBlocksFrom "" "\xE2\xB3 Retrying in " "Clicking buy now button" 1 1000
               (fun _ => [Event.readUrl])
               (fun i => "Not on a product page. Current URL: " ++ url i
                 ++ ". Buy now button only available on product pages.") 1 1,
         Except.error (exhaustMsg "Clicking buy now button" 1
           (some ("Not on a product page. Current URL: " ++ url 1
             ++ ". Buy now button only available on product pages.")))) := by
  have hopA : ∀ i, AgentTs.buyNowAttempt url btn i
      = ([Event.readUrl], Except.error ("Not on a product page. Current URL: " ++ url i
          ++ ". Buy now button only available on product pages.")) := by
    intro i
    simp [AgentTs.buyNowAttempt, h i, M.bind, throwE]
  have hopP : ∀ i, Part017.buyNowAttempt url btn i
      = ([Event.readUrl], Except.error ("Not on a product page. Current URL: " ++ url i
          ++ ". Buy now button only available on product pages.")) := by
    intro i
    simp [Part017.buyNowAttempt, h i, M.bind, throwE]
  constructor
  · have hr := retryGo_all_fail "❌ " "⏳ Retrying in " (AgentTs.buyNowAttempt url btn)
      "Clicking buy now button" 3 1000 (fun _ => [Event.readUrl])
      (fun i => "Not on a product page. Current URL: " ++ url i
        ++ ". Buy now button only available on product pages.") hopA 3 1 none (by omega) (by omega)
    simp only [AgentTs.clickBuyNow, AgentTs.retryWithBackoff, retryCore] at *
    rw [hr]
    simp [M.bind]
  · have hr := retryGo_all_fail "" "\xE2\xB3 Retrying in " (Part017.buyNowAttempt url btn)
      "Clicking buy now button" 1 1000 (fun _ => [Event.readUrl])
      (fun i => "Not on a product page. Current URL: " ++ url i
        ++ ". Buy now button only available on product pages.") hopP 1 1 none (by omega) (by omega)
    simp only [Part017.clickBuyNow, Part017.retryWithBackoff, retryCore] at *
    rw [hr]
    simp [M.bind]

/-- Witness for the amended C4 at a concrete off-product-page URL. -/
theorem c4_amended_witness :
    AgentTs.clickBuyNow (fun _ => "https://shop.app/checkout") (fun _ => true)
      = (Event.msg "Heading to checkout" []
          :: failBlocksFrom "❌ " "⏳ Retrying in " "Clicking buy now button" 3 1000
               (fun _ => [Event.readUrl])
               (fun _ => "Not on a product page. Current URL: https://shop.app/checkout. Buy now button only available on product pages.") 1 3,
         Except.error (exhaustMsg "Clicking buy now button" 3
           (some "Not on a product page. Current URL: https://shop.app/checkout. Buy now button only available on product pages."))) := by
  have hc : startsWithJS "https://shop.app/checkout" "https://shop.app/products/" = false := by
    decide
  exact (c4_amended_precondition_in_retry (fun _ => "https://shop.app/checkout")
    (fun _ => true) (fun _ => hc)).1

/-- A concrete `part_017` world for the label-mismatch counterexample: two
products are extracted and ranked, but the label-simplification completion
returns a single line. -/
def wC8 : Part017.World :=
  ⟨true, "", none,
   fun _ => Except.ok "blue shirt",
   fun _ => Except.ok (),
   fun _ => [some pBlueShirt, some pRedHat],
   fun _ => Except.ok "blue shirt\nred hat",
   fun _ => Except.ok "Nice shirt",
   "1",
   fun _ => Except.ok "1",
   fun _ _ => true,
   fun _ _ => "https://shop.app/products/blue-shirt",
   fun _ _ => true,
   none⟩

set_option maxRecDepth 16384 in
/-- Claim C8 counterexample: `turnSelectedProductsIntoReadableNames` does not
return one label per input product and the orchestrator does not treat a count
mismatch as a failure: with two selected products and a one-line completion
answer, `run` presents the single misaligned label to the human
(`sendOptions ["Nice shirt"]`) and proceeds all the way to checkout
(`buyClick`). -/
theorem c8_counterexample :
    (Part017.turnSelectedProductsIntoReadableNames (fun _ => Except.ok "Nice shirt")
        [pBlueShirt, pRedHat]).2 = Except.ok ["Nice shirt"]
    ∧ (["Nice shirt"] : List String).length ≠ ([pBlueShirt, pRedHat] : List Product).length
    ∧ Event.options ["Nice shirt"] ∈ (Part017.run wC8 "a blue shirt").1
    ∧ Event.buyClick ∈ (Part017.run wC8 "a blue shirt").1 := by
  refine ⟨?_, ?_, ?_, ?_⟩ <;> decide

/-- Claim C8 as amended: `turnSelectedProductsIntoReadableNames` returns the
trimmed lines of the completion response exactly as they arrive — their number
bears no relation to the number of input products, no count check exists, and
`run` proceeds to present whatever labels were returned; the only hard-failure
path of this stage is an exhausted retry of the completion call, which
propagates. -/
theorem c8_amended_labels (labelsC : Nat → Except String String) (sel : List Product) :
    (∀ s, labelsC 1 = Except.ok s →
      (Part017.turnSelectedProductsIntoReadableNames labelsC sel).2
        = Except.ok ((splitNl s).map (fun l => trimStr l)))
    ∧ ((∀ i, ∃ e, labelsC i = Except.error e) →
      ∃ e2, (Part017.turnSelectedProductsIntoReadableNames labelsC sel).2
        = Except.error e2) := by
  constructor
  · intro s hs
    have hop : Part017.labelsAttempt labelsC 1
        = ([Event.llm "Turning selected products into readable names"],
           Except.ok ((splitNl s).map (fun l => trimStr l))) := by
      simp [Part017.labelsAttempt, hs, M.bind]
    have h := retryCore_first_ok "" "\xE2\xB3 Retrying in " (Part017.labelsAttempt labelsC)
      "Turning selected products into readable names" 3 1000 _ _ (by omega) hop
    simp [Part017.turnSelectedProductsIntoReadableNames, Part017.retryWithBackoff,
      retryCore] at h ⊢
    simp [h]
  · intro hall
    have hop : ∀ i, ∃ e, (Part017.labelsAttempt labelsC i).2 = Except.error e := by
      intro i
      obtain ⟨e, he⟩ := hall i
      exact ⟨e, by simp [Part017.labelsAttempt, he, M.bind]⟩
    obtain ⟨e2, he2⟩ := retryGo_all_err "" "\xE2\xB3 Retrying in " (Part017.labelsAttempt labelsC)
      "Turning selected products into readable names" 3 1000 hop 3 1 none
    exact ⟨e2, he2⟩

/-- Witness for the amended C8: a one-line completion answer for two products
comes back as that one trimmed label; an always-failing completion call makes
the stage throw. -/
theorem c8_amended_witness :
    (Part017.turnSelectedProductsIntoReadableNames (fun _ => Except.ok " One label ")
        [pBlueShirt, pRedHat]).2 = Except.ok ["One label"]
    ∧ ∃ e2, (Part017.turnSelectedProductsIntoReadableNames (fun _ => Except.error "down")
        [pBlueShirt, pRedHat]).2 = Except.error e2 := by
  constructor
  · have h := (c8_amended_labels (fun _ => Except.ok " One label ") [pBlueShirt, pRedHat]).1
      " One label " rfl
    rw [h]
    decide
  · exact (c8_amended_labels (fun _ => Except.error "down") [pBlueShirt, pRedHat]).2
      (fun i => ⟨"down", rfl⟩)

/-- Substring containment survives prepending on the left. -/
theorem strIncludes_append_left (a b n : String) (h : strIncludes b n = true) :
    strIncludes (a ++ b) n = true := by
  simpa [strIncludes, String.toList] using hasSeg_append_left n.data a.data b.data h

/-- Events that may appear in a run that never gets past extraction: status
messages, backoff sleeps, page navigation for the search, the browser release,
and the query-planning completion call — but no human prompt, no ranking or
chooser or labelling completion call, no product click, no checkout activity. -/
def preRankingEvent : Event → Bool
  | Event.options _ => false
  | Event.clickTitle _ => false
  | Event.buyClick => false
  | Event.screenshot => false
  | Event.image => false
  | Event.goBack => false
  | Event.readUrl => false
  | Event.llm op => op == "Generating search query"
  | _ => true

/-- The supervisor adds only status messages and sleeps to the events of the
attempts themselves. -/
theorem retryGo_events (failPre retryPre : String) (op : Nat → M α) (name : String)
    (maxRetries base : Nat) (P : Event → Bool)
    (hmsg : ∀ s, P (Event.msg s []) = true) (hwait : ∀ n, P (Event.wait n) = true)
    (hop : ∀ i, ∀ e ∈ (op i).1, P e = true) :
    ∀ (fuel attempt : Nat) (lastErr : Option String),
      ∀ e ∈ (retryGo failPre retryPre op name maxRetries base attempt fuel lastErr).1,
        P e = true := by
  intro fuel
  induction fuel with
  | zero => intro attempt lastErr e he; simp [retryGo] at he
  | succ f ih =>
    intro attempt lastErr e he
    rcases hpair : op attempt with ⟨evs, r⟩
    rcases r with er | a
    · by_cases hf : f = 0
      · subst hf
        have ht : (retryGo failPre retryPre op name maxRetries base attempt 1 lastErr).1
            = evs ++ [Event.msg (failMsgStr failPre name attempt maxRetries er) []] := by
          simp [retryGo, hpair]
        rw [ht] at he
        rcases List.mem_append.1 he with he | he
        · exact hop attempt e (by rw [hpair]; exact he)
        · simp only [List.mem_singleton] at he
          subst he
          exact hmsg _
      · have ht : (retryGo failPre retryPre op name maxRetries base attempt (f + 1) lastErr).1
            = evs ++ ([Event.msg (failMsgStr failPre name attempt maxRetries er) [],
                Event.msg (retryMsgStr retryPre (base * 2 ^ (attempt - 1))) [],
                Event.wait (base * 2 ^ (attempt - 1))]
              ++ (retryGo failPre retryPre op name maxRetries base (attempt + 1) f
                    (some er)).1) := by
          simp [retryGo, hpair, hf]
        rw [ht] at he
        rcases List.mem_append.1 he with he | he
        · exact hop attempt e (by rw [hpair]; exact he)
        · rcases List.mem_append.1 he with he | he
          · rcases he with _ | ⟨_, (_ | ⟨_, (_ | ⟨_, h⟩)⟩)⟩
            · exact hmsg _
            · exact hmsg _
            · exact hwait _
            · cases h
          · exact ih (attempt + 1) (some er) e he
    · have ht : (retryGo failPre retryPre op name maxRetries base attempt (f + 1) lastErr).1
          = evs := by
        simp [retryGo, hpair]
      rw [ht] at he
      exact hop attempt e (by rw [hpair]; exact he)

/-- `generateSearchQuery` never fails the run: whatever the completion oracle
does, it returns some query, and its trace holds only pre-ranking events. -/
theorem generateSearchQuery_ok_A (genC : Nat → Except String String) (up : String) :
    ∃ q tg, AgentTs.generateSearchQuery genC up = (tg, Except.ok q)
      ∧ ∀ e ∈ tg, preRankingEvent e = true := by
  have hop : ∀ i, ∀ e ∈ (AgentTs.genQueryAttempt genC i).1, preRankingEvent e = true := by
    intro i e he
    rcases hc : genC i with er | c <;>
      simp only [AgentTs.genQueryAttempt, hc, bind_eq, M.bind, liftE_def, emit_def, pure_eq,
        List.append_nil, List.nil_append, List.mem_singleton] at he <;>
      · subst he; rfl
  have hr := retryGo_events "❌ " "⏳ Retrying in " (AgentTs.genQueryAttempt genC)
    "Generating search query" 3 1000 preRankingEvent (fun _ => rfl) (fun _ => rfl) hop 3 1 none
  rcases hR : retryGo "❌ " "⏳ Retrying in " (AgentTs.genQueryAttempt genC)
      "Generating search query" 3 1000 1 3 none with ⟨t, r⟩
  rw [hR] at hr
  rcases r with er | q
  · refine ⟨up, t ++ [Event.msg ("⚠️ Failed to generate search query, using original prompt: "
      ++ up) []], ?_, ?_⟩
    · simp only [AgentTs.generateSearchQuery, AgentTs.retryWithBackoff, retryCore, hR]
      simp [M.bind]
    · intro e he
      rcases List.mem_append.1 he with he | he
      · exact hr e he
      · simp at he; subst he; rfl
  · refine ⟨q, t, ?_, hr⟩
    simp only [AgentTs.generateSearchQuery, AgentTs.retryWithBackoff, retryCore, hR]
    rfl

/-- `performSearch` of `agent.ts` when the first search attempt succeeds. -/
theorem performSearch_first_ok_A (searchA : Nat → Except String Unit) (q : String)
    (h : searchA 1 = Except.ok ()) :
    AgentTs.performSearch searchA q
      = ([Event.msg ("Searching Shopapp with " ++ q) [],
          Event.goto ("https://shop.app/search/results?query=" ++ encodeURIComponent q),
          Event.msg "Waiting for search results" []], Except.ok ()) := by
  have hop : AgentTs.searchAttempt searchA q 1
      = ([Event.goto ("https://shop.app/search/results?query=" ++ encodeURIComponent q),
          Event.msg "Waiting for search results" []], Except.ok ()) := by
    simp [AgentTs.searchAttempt, h, M.bind]
  have hr := retryCore_first_ok "❌ " "⏳ Retrying in " (AgentTs.searchAttempt searchA q)
    "Search operation" 3 1000 _ _ (by omega) hop
  simp only [AgentTs.performSearch, AgentTs.retryWithBackoff, retryCore] at hr ⊢
  rw [hr]
  simp [M.bind]

/-- `extractProducts` of `agent.ts` when every attempt finds no product card. -/
theorem extractProducts_all_empty_A (cards : Nat → List (Option Product))
    (hx : ∀ i, cards i = []) :
    AgentTs.extractProducts cards
      = (Event.msg "Gathering items" []
          :: failBlocksFrom "❌ " "⏳ Retrying in " "Product extraction" 3 1000 (fun _ => [])
              (fun _ => "No product cards found on the page") 1 3,
         Except.error (exhaustMsg "Product extraction" 3
           (some "No product cards found on the page"))) := by
  have hextOp : ∀ i, extractAttempt cards i
      = ([], Except.error "No product cards found on the page") := by
    intro i
    simp [extractAttempt, hx i, throwE]
  have hr := retryGo_all_fail "❌ " "⏳ Retrying in " (extractAttempt cards)
    "Product extraction" 3 1000 (fun _ => []) (fun _ => "No product cards found on the page")
    hextOp 3 1 none (by omega) (by omega)
  simp only [AgentTs.extractProducts, AgentTs.retryWithBackoff, retryCore]
  rw [hr]
  simp [M.bind]

/-- Claim C7: when every extraction attempt finds zero candidates (and the run
reaches extraction: browser up, search landed), the `agent.ts` run ends as a
failure whose single terminal message carries the "Product extraction" retry
error, and no later stage runs: the whole trace is free of human prompts,
ranking/chooser/labelling completion calls, product clicks and checkout
activity — extraction failure propagates with no fallback. -/
theorem c7_zero_extraction_is_fatal (w : AgentTs.World) (up : String)
    (hl : w.launchOk = true) (hi : w.initErr = none)
    (hs : w.searchA 1 = Except.ok ()) (hx : ∀ i, w.extractCards i = []) :
    (AgentTs.run w up).2 = Except.ok ()
    ∧ Event.msg ("❌ Critical error in agent execution: "
        ++ exhaustMsg "Product extraction" 3 (some "No product cards found on the page")) []
        ∈ (AgentTs.run w up).1
    ∧ strIncludes (exhaustMsg "Product extraction" 3
        (some "No product cards found on the page")) "Product extraction" = true
    ∧ (∀ e ∈ (AgentTs.run w up).1, preRankingEvent e = true) := by
  obtain ⟨q, tg, hg, hgP⟩ := generateSearchQuery_ok_A w.genQueryC up
  have hinit : AgentTs.initBrowser w = ([Event.goto "https://shop.app"], Except.ok ()) := by
    simp [AgentTs.initBrowser, hl, hi]
  have hsearch := performSearch_first_ok_A w.searchA q hs
  have hext := extractProducts_all_empty_A w.extractCards hx
  rcases hrunp : AgentTs.run w up with ⟨T, R⟩
  simp only [AgentTs.run, bind_eq, M.bind_ok, M.bind_err, pure_eq, sendMsg_def, sendMsgD_def,
    emit_def, catchM_err, catchM_ok, liftE_def, hinit, hg, hsearch, hext, hl,
    AgentTs.navigateToShopApp, if_true, List.append_assoc, List.cons_append, List.nil_append,
    List.append_nil, List.singleton_append] at hrunp
  injection hrunp with hT hR
  subst hT
  subst hR
  refine ⟨rfl, ?_, exhaustMsg_includes_name .., ?_⟩
  · simp
  · have hfb : ∀ e ∈ failBlocksFrom "❌ " "⏳ Retrying in " "Product extraction" 3 1000
        (fun _ => []) (fun _ => "No product cards found on the page") 1 3,
        preRankingEvent e = true := by decide
    intro e he
    simp only [List.mem_cons, List.mem_append] at he
    rcases he with he | he
    · subst he; rfl
    rcases he with he | he
    · exact hgP e he
    rcases he with he | he
    · subst he; rfl
    rcases he with he | he
    · subst he; rfl
    rcases he with he | he
    · subst he; rfl
    rcases he with he | he
    · subst he; rfl
    rcases he with he | he
    · subst he; rfl
    rcases he with he | he
    · subst he; rfl
    rcases he with he | he
    · exact hfb e he
    rcases he with he | he
    · subst he; rfl
    rcases he with he | he
    · subst he; rfl
    cases he

/-- A concrete `agent.ts` world in which every extraction attempt finds zero
product cards. -/
def wC7 : AgentTs.World :=
  ⟨true, "", none,
   fun _ => Except.ok "blue shirt",
   fun _ => Except.ok (),
   fun _ => [],
   fun _ => Except.ok "",
   "1",
   fun _ => Except.ok "1",
   fun _ => false,
   fun _ => "",
   fun _ => false⟩

/-- Witness for C7 at the concrete world `wC7`. -/
theorem c7_witness :
    (AgentTs.run wC7 "a blue shirt").2 = Except.ok ()
    ∧ Event.msg ("❌ Critical error in agent execution: "
        ++ exhaustMsg "Product extraction" 3 (some "No product cards found on the page")) []
        ∈ (AgentTs.run wC7 "a blue shirt").1 := by
  have h := c7_zero_extraction_is_fatal wC7 "a blue shirt" rfl rfl rfl (fun i => rfl)
  exact ⟨h.1, h.2.1⟩

/-- Claim C9: in both variants, whenever the browser session is acquired at
the start of `run` (`chromium.launch` succeeds), the very last observable
event of the run — on every exit path, success or failure — is the
`browser.close()` of the guaranteed-execution `finally` block. -/
theorem c9_session_always_released (wA : AgentTs.World) (wP : Part017.World)
    (upA upP : String) (hA : wA.launchOk = true) (hP : wP.launchOk = true) :
    (AgentTs.run wA upA).1.getLast? = some Event.browserClose
    ∧ (Part017.run wP upP).1.getLast? = some Event.browserClose := by
  constructor
  · simp only [AgentTs.run, hA, if_true]
    exact List.getLast?_concat _
  · simp only [Part017.run, hP, if_true]
    exact List.getLast?_concat _

/-- Witness for C9: a failing run (`wC7`, zero extraction) and a successful
run (`wC8`, reaches checkout) both end with the browser release. -/
theorem c9_witness :
    (AgentTs.run wC7 "a blue shirt").1.getLast? = some Event.browserClose
    ∧ (Part017.run wC8 "a blue shirt").1.getLast? = some Event.browserClose := by
  have h := c9_session_always_released wC7 wC8 "a blue shirt" "a blue shirt" rfl rfl
  exact h

/-- Predicate picking out the human-in-the-loop prompts of a trace. -/
def isOptionsEv : Event → Bool
  | Event.options _ => true
  | _ => false

/-- Predicate picking out the product-card clicks of a trace. -/
def isClickEv : Event → Bool
  | Event.clickTitle _ => true
  | _ => false

/-- Claim C2: in a `part_017` run that reaches checkout and whose `clickBuyNow`
exhausts its bounded attempts (one attempt, `maxRetries = 1`) both before and
during recovery, the whole run:
issues exactly one human prompt (`sendOptions`) and exactly one ranking and one
chooser completion call — recovery never re-asks and never re-ranks; clicks a
product card exactly twice, both times the very candidate committed to
(`resolveChosen`), the second being the recovery replay after `page.goBack()`;
attempts checkout exactly twice (two `page.url()` reads — one more attempt
after the original); and after the second failure terminates with the single
critical-error message carrying the checkout retry error. -/
theorem c2_recovery_replays_selection (w : Part017.World) (up s rc lc cc e1 e2 : String)
    (cs : List (Option Product)) (ps sel : List Product) (p : Product)
    (hl : w.launchOk = true) (hi : w.initErr = none)
    (hg : w.genQueryC 1 = Except.ok s)
    (hsr : w.searchA 1 = Except.ok ())
    (hc : w.extractCards 1 = cs)
    (hps : cs.filterMap id = ps) (hpsne : ps ≠ [])
    (hrk : w.rankC 1 = Except.ok rc)
    (hsel : (if (selectLoop ps (cleanLines rc) []).length ≠ 5 then
        (selectLoop ps (cleanLines rc) []).take 5
      else selectLoop ps (cleanLines rc) []) = sel)
    (hselne : sel ≠ [])
    (hlb : w.labelsC 1 = Except.ok lc)
    (hcc : w.chooseC 1 = Except.ok cc)
    (hp : resolveChosen sel (parseIntJS (jsOrStr cc "0")) = some p)
    (hck1 : w.clickCard 1 1 = true)
    (hb1 : Part017.buyNowAttempt (w.buyUrl 1) (w.buyBtn 1) 1
      = ([Event.readUrl], Except.error e1))
    (hgb : w.goBackE = none)
    (hck2 : w.clickCard 2 1 = true)
    (hb2 : Part017.buyNowAttempt (w.buyUrl 2) (w.buyBtn 2) 1
      = ([Event.readUrl], Except.error e2)) :
    (Part017.run w up).2 = Except.ok ()
    ∧ ((Part017.run w up).1.filter isOptionsEv).length = 1
    ∧ ((Part017.run w up).1.filter
        (fun e => e = Event.llm "Selecting best products")).length = 1
    ∧ ((Part017.run w up).1.filter
        (fun e => e = Event.llm "Getting selected product")).length = 1
    ∧ (Part017.run w up).1.filter isClickEv
        = [Event.clickTitle p.title, Event.clickTitle p.title]
    ∧ Event.goBack ∈ (Part017.run w up).1
    ∧ ((Part017.run w up).1.filter (fun e => e = Event.readUrl)).length = 2
    ∧ Event.msg ("Critical error in agent execution: "
        ++ exhaustMsg "Clicking buy now button" 1 (some e2)) [] ∈ (Part017.run w up).1 := by
  obtain ⟨pp, ps2, rfl⟩ : ∃ a l, ps = a :: l := by
    cases ps with
    | nil => exact absurd rfl hpsne
    | cons a l => exact ⟨a, l, rfl⟩
  obtain ⟨p0, sel2, rfl⟩ : ∃ a l, sel = a :: l := by
    cases sel with
    | nil => exact absurd rfl hselne
    | cons a l => exact ⟨a, l, rfl⟩
  have hinit : Part017.initBrowser w = ([Event.goto "https://shop.app"], Except.ok ()) := by
    simp [Part017.initBrowser, hl, hi]
  have hgq : Part017.generateSearchQuery w.genQueryC up
      = ([Event.llm "Generating search query"], Except.ok (trimStr s)) := by
    have hop : Part017.genQueryAttempt w.genQueryC 1
        = ([Event.llm "Generating search query"], Except.ok (trimStr s)) := by
      simp [Part017.genQueryAttempt, hg, M.bind]
    have hr := retryCore_first_ok "" "\xE2\xB3 Retrying in " (Part017.genQueryAttempt w.genQueryC)
      "Generating search query" 3 1000 _ _ (by omega) hop
    simp only [Part017.generateSearchQuery, Part017.retryWithBackoff, retryCore] at hr ⊢
    rw [hr]
    rfl
  have hsearch : Part017.performSearch w.searchA (trimStr s)
      = ([Event.msg ("Query ready! searching shop.app with \"" ++ trimStr s ++ "\"")
            ["configuring encoding", "routing to correct search endpoint"],
          Event.goto ("https://shop.app/search/results?query="
            ++ encodeURIComponent (trimStr s)),
          Event.msg "Waiting for search results to load..." []], Except.ok ()) := by
    have hop : Part017.searchAttempt w.searchA (trimStr s) 1
        = ([Event.goto ("https://shop.app/search/results?query="
              ++ encodeURIComponent (trimStr s)),
            Event.msg "Waiting for search results to load..." []], Except.ok ()) := by
      simp [Part017.searchAttempt, hsr, M.bind]
    have hr := retryCore_first_ok "" "\xE2\xB3 Retrying in "
      (Part017.searchAttempt w.searchA (trimStr s)) "Search operation" 3 1000 _ _ (by omega) hop
    simp only [Part017.performSearch, Part017.retryWithBackoff, retryCore] at hr ⊢
    rw [hr]
    simp [M.bind]
  have hcs0 : ¬(cs.length = 0) := by
    intro h0
    rw [List.length_eq_zero] at h0
    subst h0
    simp at hps
  have hextOp : extractAttempt w.extractCards 1 = ([], Except.ok (pp :: ps2)) := by
    simp only [extractAttempt, hc]
    rw [if_neg hcs0, hps]
    rw [if_neg (by simp)]
    rfl
  have hextr : Part017.extractProducts w.extractCards
      = ([Event.msg "Gathering items from shop.app search results"
            ["parsing search results", "extracting product information"]],
         Except.ok (pp :: ps2)) := by
    have hr := retryCore_first_ok "" "\xE2\xB3 Retrying in " (extractAttempt w.extractCards)
      "Product extraction" 3 1000 _ _ (by omega) hextOp
    simp only [Part017.extractProducts, Part017.retryWithBackoff, retryCore] at hr ⊢
    rw [hr]
    simp [M.bind]
  have hrankOp : Part017.rankAttempt w.rankC (pp :: ps2) 1
      = ([Event.llm "Selecting best products"], Except.ok (p0 :: sel2)) := by
    simp only [Part017.rankAttempt, hrk, bind_eq, M.bind, liftE_def, emit_def, pure_eq,
      List.append_nil, List.nil_append]
    rw [hsel]
  have hrank : Part017.selectBestProducts w.rankC (pp :: ps2) up
      = ([Event.msg ("Picking best items from " ++ toString (pp :: ps2).length ++ " products")
            ["ranking products", "selecting best matches from user prompt"],
          Event.llm "Selecting best products"], Except.ok (p0 :: sel2)) := by
    have hr := retryCore_first_ok "" "\xE2\xB3 Retrying in "
      (Part017.rankAttempt w.rankC (pp :: ps2)) "Selecting best products" 3 1000 _ _
      (by omega) hrankOp
    simp only [Part017.selectBestProducts, Part017.retryWithBackoff, retryCore] at hr ⊢
    rw [if_neg (by simp)]
    rw [hr]
    simp [M.bind]
  have hnames : Part017.turnSelectedProductsIntoReadableNames w.labelsC (p0 :: sel2)
      = ([Event.llm "Turning selected products into readable names"],
         Except.ok ((splitNl lc).map (fun l => trimStr l))) := by
    have hop : Part017.labelsAttempt w.labelsC 1
        = ([Event.llm "Turning selected products into readable names"],
           Except.ok ((splitNl lc).map (fun l => trimStr l))) := by
      simp [Part017.labelsAttempt, hlb, M.bind]
    have hr := retryCore_first_ok "" "\xE2\xB3 Retrying in " (Part017.labelsAttempt w.labelsC)
      "Turning selected products into readable names" 3 1000 _ _ (by omega) hop
    simp only [Part017.turnSelectedProductsIntoReadableNames, Part017.retryWithBackoff,
      retryCore] at hr ⊢
    exact hr
  have hchoose : Part017.getSelectedProduct w.chooseC (p0 :: sel2) w.humanResponse
      = ([Event.llm "Getting selected product"],
         Except.ok (parseIntJS (jsOrStr cc "0"))) := by
    have hop : Part017.chooseAttempt w.chooseC 1
        = ([Event.llm "Getting selected product"],
           Except.ok (parseIntJS (jsOrStr cc "0"))) := by
      simp [Part017.chooseAttempt, hcc, M.bind]
    have hr := retryCore_first_ok "" "\xE2\xB3 Retrying in " (Part017.chooseAttempt w.chooseC)
      "Getting selected product" 3 1000 _ _ (by omega) hop
    simp only [Part017.getSelectedProduct, Part017.retryWithBackoff, retryCore] at hr ⊢
    rw [hr]
    rfl
  have hclick1 : Part017.clickProduct (w.clickCard 1) p
      = ([Event.clickTitle p.title], Except.ok ()) := by
    have hop : clickAttempt (w.clickCard 1) p 1 = ([Event.clickTitle p.title], Except.ok ()) := by
      simp [clickAttempt, hck1]
    exact retryCore_first_ok "" "\xE2\xB3 Retrying in " (clickAttempt (w.clickCard 1) p)
      ("Clicking product: " ++ p.title) 3 1000 _ _ (by omega) hop
  have hclick2 : Part017.clickProduct (w.clickCard 2) p
      = ([Event.clickTitle p.title], Except.ok ()) := by
    have hop : clickAttempt (w.clickCard 2) p 1 = ([Event.clickTitle p.title], Except.ok ()) := by
      simp [clickAttempt, hck2]
    exact retryCore_first_ok "" "\xE2\xB3 Retrying in " (clickAttempt (w.clickCard 2) p)
      ("Clicking product: " ++ p.title) 3 1000 _ _ (by omega) hop
  have hbuy1H : Part017.clickBuyNow (w.buyUrl 1) (w.buyBtn 1)
      = ([Event.msg "Heading to checkout" [], Event.readUrl,
          Event.msg (failMsgStr "" "Clicking buy now button" 1 1 e1) []],
         Except.error (exhaustMsg "Clicking buy now button" 1 (some e1))) := by
    simp only [Part017.clickBuyNow, Part017.retryWithBackoff, retryCore, retryGo, hb1]
    simp [M.bind]
  have hbuy2H : Part017.clickBuyNow (w.buyUrl 2) (w.buyBtn 2)
      = ([Event.msg "Heading to checkout" [], Event.readUrl,
          Event.msg (failMsgStr "" "Clicking buy now button" 1 1 e2) []],
         Except.error (exhaustMsg "Clicking buy now button" 1 (some e2))) := by
    simp only [Part017.clickBuyNow, Part017.retryWithBackoff, retryCore, retryGo, hb2]
    simp [M.bind]
  have hE1 : exhaustMsg "Clicking buy now button" 1 (some e1)
      = "Clicking buy now button failed after 1 attempts. Last error: " ++ e1 := by
    simp only [exhaustMsg]
    rw [(by decide : ("Clicking buy now button" ++ " failed after " ++ toString (1 : Nat)
      ++ " attempts. Last error: ") = "Clicking buy now button failed after 1 attempts. Last error: ")]
  have hinc1 : strIncludes (exhaustMsg "Clicking buy now button" 1 (some e1))
      "Clicking buy now button failed after" = true := by
    rw [hE1]
    exact strIncludes_append_right _ e1 _ (by decide)
  have hrecov : Part017.retryWithOriginalSelection w.goBackE (w.clickCard 2) (w.buyUrl 2)
      (w.buyBtn 2) ⟨p, w.humanResponse, parseIntJS (jsOrStr cc "0")⟩
      = ([Event.msg "ðŸ”„ Buy now failed, going back to search results to try again..." [],
          Event.goBack,
          Event.msg ("ðŸ”„ Retrying with the same selection: " ++ p.title) [],
          Event.clickTitle p.title,
          Event.msg "Heading to checkout" [], Event.readUrl,
          Event.msg (failMsgStr "" "Clicking buy now button" 1 1 e2) [],
          Event.msg (" Retry failed: "
            ++ exhaustMsg "Clicking buy now button" 1 (some e2)) []],
         Except.error (exhaustMsg "Clicking buy now button" 1 (some e2))) := by
    simp only [Part017.retryWithOriginalSelection, hgb, liftOpt, bind_eq, M.bind_ok, M.bind_err,
      emit_def, sendMsg_def, hclick2, hbuy2H, catchM_err, throwE, pure_eq, M.bind,
      List.cons_append, List.nil_append, List.append_nil]
  have hps0 : ¬((pp :: ps2).length = 0) := by simp
  have hselpos : (p0 :: sel2).length > 0 := by simp
  rcases hrunp : Part017.run w up with ⟨T, R⟩
  simp only [Part017.run, bind_eq, M.bind_ok, M.bind_err, pure_eq, sendMsg_def, sendMsgD_def,
    emit_def, liftE_def, catchM_err, catchM_ok, sendOptionsM, Part017.navigateToShopApp,
    hinit, hgq, hsearch, hextr, hrank, hnames, hchoose, hp, hl, hbuy1H, hinc1, hrecov,
    hclick1, hps0, hselpos, if_true, if_false, List.cons_append, List.nil_append,
    List.append_nil, List.append_assoc, List.singleton_append] at hrunp
  injection hrunp with hT hR
  subst hT
  subst hR
  refine ⟨rfl, rfl, rfl, rfl, rfl, by simp, rfl, by simp⟩

/-- A concrete `part_017` world whose checkout fails on both passes: the page
is a product-detail page but no buy-now control is ever found. -/
def wC2 : Part017.World :=
  ⟨true, "", none,
   fun _ => Except.ok "blue shirt",
   fun _ => Except.ok (),
   fun _ => [some pBlueShirt, some pRedHat],
   fun _ => Except.ok "blue shirt\nred hat",
   fun _ => Except.ok "Blue shirt\nRed hat",
   "1",
   fun _ => Except.ok "1",
   fun _ _ => true,
   fun _ _ => "https://shop.app/products/blue-shirt",
   fun _ _ => false,
   none⟩

set_option maxRecDepth 16384 in
/-- Witness for C2 at the concrete world `wC2`: one human prompt, the same
candidate clicked twice, exactly two checkout attempts. -/
theorem c2_witness :
    ((Part017.run wC2 "a blue shirt").1.filter isOptionsEv).length = 1
    ∧ (Part017.run wC2 "a blue shirt").1.filter isClickEv
        = [Event.clickTitle pBlueShirt.title, Event.clickTitle pBlueShirt.title]
    ∧ ((Part017.run wC2 "a blue shirt").1.filter (fun e => e = Event.readUrl)).length = 2 := by
  have h := c2_recovery_replays_selection wC2 "a blue shirt" "blue shirt"
    "blue shirt\nred hat" "Blue shirt\nRed hat" "1"
    "Buy now button not found with any selector" "Buy now button not found with any selector"
    [some pBlueShirt, some pRedHat] [pBlueShirt, pRedHat] [pBlueShirt, pRedHat] pBlueShirt
    rfl rfl rfl rfl rfl (by decide) (by decide) rfl (by decide) (by decide) rfl rfl
    (by decide) rfl rfl rfl rfl rfl
  exact ⟨h.2.1, h.2.2.2.2.1, h.2.2.2.2.2.2.1⟩
